import Mathlib

/-!
Verification development for the MHTI media-scraper backend.

The Python sources under `server/` are embedded shallowly: pure string
manipulation becomes functions on `List Char` / `String`, `pathlib` paths
become a small structured path model, filesystem state becomes an explicit
record threaded through the operations, and HTTP / external-service calls
become oracle fields of an environment record.  Machine floats appear only
as the parser-confidence score, which is modelled by exact rationals (the
score is a sum of small decimal constants, clamped; the properties proved
are insensitive to rounding).
-/

set_option maxHeartbeats 1600000

namespace MHTI

/-! ## Python character classes -/

/-- Whitespace in the sense of Python's `str.strip()` / `re.\s` on `str`
(ASCII whitespace, the C1 separators, NBSP and the Unicode space
characters). -/
def isPyWs (c : Char) : Bool :=
  c == ' ' || c == '\t' || c == '\n' || c == '\r' ||
  c.val == 0x0b || c.val == 0x0c ||
  (0x1c ≤ c.val && c.val ≤ 0x1f) ||
  c.val == 0x85 || c.val == 0xa0 || c.val == 0x1680 ||
  (0x2000 ≤ c.val && c.val ≤ 0x200a) ||
  c.val == 0x2028 || c.val == 0x2029 || c.val == 0x202f ||
  c.val == 0x205f || c.val == 0x3000

/-- ASCII decimal digit (`\d` on the strings this code handles). -/
def isDigit (c : Char) : Bool := '0' ≤ c && c ≤ '9'

/-- Numeric value of a digit character. -/
def digitVal (c : Char) : Nat := c.toNat - '0'.toNat

/-- `int(...)` on a list of digit characters (most significant first). -/
def digitsToNat (l : List Char) : Nat :=
  l.foldl (fun acc c => acc * 10 + digitVal c) 0

/-! ## `TemplateService.sanitize_filename` (template_service.py)

```
invalid_chars = r'<>:"/\|?*'
result = filename
for char in invalid_chars:
    result = result.replace(char, "")
result = result.strip(" .")
result = re.sub(r"\s+", " ", result)
```
-/

/-- The characters stripped out of every path segment. -/
def invalidChars : List Char :=
  ['<', '>', ':', '"', '/', '\\', '|', '?', '*']

/-- The loop `for char in invalid_chars: result = result.replace(char, "")`:
replacing single characters by the empty string is filtering them out, one
character of `invalid_chars` after the other. -/
def removeInvalidChars (l : List Char) : List Char :=
  invalidChars.foldl (fun acc ch => acc.filter (fun c => c ≠ ch)) l

/-- Membership in the strip set of `str.strip(" .")`. -/
def isSpaceDot (c : Char) : Bool := c == ' ' || c == '.'

/-- Python `str.strip` with an explicit character class: drop such
characters from both ends. -/
def pyStripBy (p : Char → Bool) (l : List Char) : List Char :=
  List.rdropWhile p (List.dropWhile p l)

/-- `re.sub(r"\s+", " ", ·)`: every maximal run of whitespace becomes one
space (the run is consumed left to right, the single replacement space is
emitted at its last character). -/
def collapseWs : List Char → List Char
  | [] => []
  | [c] => if isPyWs c then [' '] else [c]
  | c :: d :: rest =>
    if isPyWs c && isPyWs d then collapseWs (d :: rest)
    else (if isPyWs c then ' ' else c) :: collapseWs (d :: rest)

/-- List-level `TemplateService.sanitize_filename`. -/
def sanitizeL (l : List Char) : List Char :=
  collapseWs (pyStripBy isSpaceDot (removeInvalidChars l))

/-- `TemplateService.sanitize_filename`. -/
def sanitize_filename (s : String) : String :=
  String.mk (sanitizeL s.data)

/-! ### Lemmas towards the idempotence analysis of `sanitize_filename` -/

/-- Induction with a two-element lookahead, matching the shape of
`collapseWs`. -/
theorem twoStepInduction {motive : List Char → Prop} (h0 : motive [])
    (h1 : ∀ c, motive [c])
    (h2 : ∀ c d rest, motive (d :: rest) → motive (c :: d :: rest)) :
    ∀ l, motive l := by
  intro l
  induction l with
  | nil => exact h0
  | cons c tl ih =>
    cases tl with
    | nil => exact h1 c
    | cons d rest => exact h2 c d rest ih

/-- A character is acceptable in collapsed output: not whitespace, or the
plain space. -/
def wsOk (c : Char) : Bool := !(isPyWs c) || c == ' '

/-- The output of `collapseWs` never contains whitespace other than `' '`
and never two adjacent whitespace characters. -/
def collapsedB : List Char → Bool
  | [] => true
  | [c] => wsOk c
  | c :: d :: rest => (wsOk c && !(isPyWs c && isPyWs d)) && collapsedB (d :: rest)

theorem collapsedB_tail {c : Char} {t : List Char}
    (h : collapsedB (c :: t) = true) : collapsedB t = true := by
  cases t with
  | nil => rfl
  | cons d rest =>
    simp only [collapsedB, Bool.and_eq_true] at h
    exact h.2

theorem collapseWs_head_of_not_ws {d : Char} (rest : List Char)
    (hd : isPyWs d = false) : ∃ tl, collapseWs (d :: rest) = d :: tl := by
  cases rest with
  | nil =>
    refine ⟨[], ?_⟩
    simp [collapseWs, hd]
  | cons d2 r =>
    refine ⟨collapseWs (d2 :: r), ?_⟩
    simp [collapseWs, hd]

theorem collapsedB_collapseWs : ∀ l, collapsedB (collapseWs l) = true := by
  refine twoStepInduction ?_ ?_ ?_
  · rfl
  · intro c
    by_cases h : isPyWs c = true
    · rw [show collapseWs [c] = [' '] by simp [collapseWs, h]]
      decide
    · rw [show collapseWs [c] = [c] by simp [collapseWs, h]]
      show wsOk c = true
      simp [wsOk, h]
  · intro c d rest ih
    by_cases hcd : (isPyWs c && isPyWs d) = true
    · rw [show collapseWs (c :: d :: rest) = collapseWs (d :: rest) by
        simp [collapseWs, hcd]]
      exact ih
    · have hstep : collapseWs (c :: d :: rest)
          = (if isPyWs c then ' ' else c) :: collapseWs (d :: rest) := by
        simp [collapseWs, hcd]
      rw [hstep]
      set e := if isPyWs c = true then ' ' else c with he
      have hok : wsOk e = true := by
        by_cases hc : isPyWs c = true
        · rw [show e = ' ' by rw [he, if_pos hc]]
          decide
        · rw [show e = c by rw [he, if_neg (by simp [hc])]]
          simp [wsOk, hc]
      cases hM : collapseWs (d :: rest) with
      | nil => show (wsOk e : Bool) = true; exact hok
      | cons m tl =>
        have hpair : (isPyWs e && isPyWs m) = false := by
          by_cases hc : isPyWs c = true
          · have hd : isPyWs d = false := by
              cases hd' : isPyWs d
              · rfl
              · exact absurd (by simp [hc, hd']) hcd
            obtain ⟨tl', htl'⟩ := collapseWs_head_of_not_ws rest hd
            rw [htl'] at hM
            have hm : m = d := ((List.cons.injEq _ _ _ _).mp hM).1.symm
            rw [hm, hd, Bool.and_false]
          · have hce : isPyWs e = false := by
              rw [show e = c by rw [he, if_neg (by simp [hc])]]
              simpa using hc
            rw [hce, Bool.false_and]
        have ih' : collapsedB (m :: tl) = true := hM ▸ ih
        show ((wsOk e && !(isPyWs e && isPyWs m)) && collapsedB (m :: tl)) = true
        rw [hok, hpair, ih']
        rfl

theorem collapseWs_of_collapsedB : ∀ l, collapsedB l = true → collapseWs l = l := by
  refine twoStepInduction ?_ ?_ ?_
  · intro _; rfl
  · intro c h
    by_cases hc : isPyWs c = true
    · have : c = ' ' := by
        simp only [collapsedB, wsOk, hc, Bool.not_true, Bool.false_or,
          beq_iff_eq] at h
        exact h
      simp [collapseWs, hc, this]
    · simp [collapseWs, hc]
  · intro c d rest ih h
    simp only [collapsedB, Bool.and_eq_true, Bool.not_eq_true'] at h
    obtain ⟨⟨hok, hpair⟩, htail⟩ := h
    have hguard : (isPyWs c && isPyWs d) = false := hpair
    have hrec : collapseWs (d :: rest) = d :: rest := ih htail
    have hstep : collapseWs (c :: d :: rest)
        = (if isPyWs c then ' ' else c) :: collapseWs (d :: rest) := by
      simp [collapseWs, hguard]
    rw [hstep, hrec]
    by_cases hc : isPyWs c = true
    · have hce : c = ' ' := by
        simp only [wsOk, hc, Bool.not_true, Bool.false_or, beq_iff_eq] at hok
        exact hok
      rw [if_pos hc, hce]
    · rw [if_neg (by simp [hc])]

theorem mem_collapseWs : ∀ l, ∀ a ∈ collapseWs l, a = ' ' ∨ a ∈ l := by
  refine twoStepInduction ?_ ?_ ?_
  · intro a ha; simp [collapseWs] at ha
  · intro c a ha
    by_cases hc : isPyWs c = true
    · simp [collapseWs, hc] at ha
      exact Or.inl ha
    · simp [collapseWs, hc] at ha
      exact Or.inr (by simp [ha])
  · intro c d rest ih a ha
    by_cases hcd : (isPyWs c && isPyWs d) = true
    · rw [show collapseWs (c :: d :: rest) = collapseWs (d :: rest) by
        simp [collapseWs, hcd]] at ha
      rcases ih a ha with h | h
      · exact Or.inl h
      · exact Or.inr (List.mem_cons_of_mem _ h)
    · rw [show collapseWs (c :: d :: rest)
          = (if isPyWs c then ' ' else c) :: collapseWs (d :: rest) by
        simp [collapseWs, hcd]] at ha
      rcases List.mem_cons.mp ha with h | h
      · by_cases hc : isPyWs c = true
        · simp [hc] at h; exact Or.inl h
        · simp [hc] at h; exact Or.inr (by simp [h])
      · rcases ih a h with h' | h'
        · exact Or.inl h'
        · exact Or.inr (List.mem_cons_of_mem _ h')

theorem collapsedB_append_left : ∀ l₁ l₂ : List Char,
    collapsedB (l₁ ++ l₂) = true → collapsedB l₁ = true := by
  refine twoStepInduction ?_ ?_ ?_
  · intro _ _; rfl
  · intro c l₂ h
    cases l₂ with
    | nil => simpa using h
    | cons d r =>
      simp only [List.cons_append, List.nil_append, collapsedB,
        Bool.and_eq_true] at h
      exact h.1.1
  · intro c d rest ih l₂ h
    simp only [List.cons_append, collapsedB, Bool.and_eq_true] at h
    obtain ⟨hpair, htail⟩ := h
    have : collapsedB (d :: rest) = true := ih l₂ htail
    simp [collapsedB, hpair.1, hpair.2, this]

theorem collapsedB_dropWhile (p : Char → Bool) :
    ∀ l, collapsedB l = true → collapsedB (List.dropWhile p l) = true := by
  intro l
  induction l with
  | nil => intro h; exact h
  | cons c t ih =>
    intro h
    by_cases hc : p c = true
    · rw [List.dropWhile_cons_of_pos hc]
      exact ih (collapsedB_tail h)
    · rw [List.dropWhile_cons_of_neg (by simp [hc])]
      exact h

theorem collapsedB_rdropWhile (p : Char → Bool) (l : List Char)
    (h : collapsedB l = true) : collapsedB (List.rdropWhile p l) = true := by
  have hpre := List.rdropWhile_prefix p l
  obtain ⟨t, ht⟩ := hpre
  apply collapsedB_append_left (List.rdropWhile p l) t
  rw [ht]
  exact h

theorem collapsedB_pyStripBy (p : Char → Bool) (l : List Char)
    (h : collapsedB l = true) : collapsedB (pyStripBy p l) = true :=
  collapsedB_rdropWhile p _ (collapsedB_dropWhile p l h)

theorem head_dropWhile_not (p : Char → Bool) :
    ∀ l x, (List.dropWhile p l).head? = some x → p x = false := by
  intro l
  induction l with
  | nil => intro x hx; simp at hx
  | cons c t ih =>
    intro x hx
    by_cases hc : p c = true
    · rw [List.dropWhile_cons_of_pos hc] at hx
      exact ih x hx
    · rw [List.dropWhile_cons_of_neg (by simp [hc])] at hx
      simp only [List.head?_cons, Option.some.injEq] at hx
      simpa [← hx] using hc

theorem dropWhile_eq_self_of_head (p : Char → Bool) (l : List Char)
    (h : ∀ x, l.head? = some x → p x = false) : List.dropWhile p l = l := by
  cases l with
  | nil => rfl
  | cons c t =>
    have := h c (by simp)
    rw [List.dropWhile_cons_of_neg (by simp [this])]

theorem pyStripBy_idem (p : Char → Bool) (l : List Char) :
    pyStripBy p (pyStripBy p l) = pyStripBy p l := by
  unfold pyStripBy
  set m := List.dropWhile p l with hm
  have hdrop : List.dropWhile p (List.rdropWhile p m) = List.rdropWhile p m := by
    apply dropWhile_eq_self_of_head
    intro x hx
    have hpre := List.rdropWhile_prefix p m
    obtain ⟨t, ht⟩ := hpre
    cases hrc : List.rdropWhile p m with
    | nil => rw [hrc] at hx; simp at hx
    | cons y ys =>
      have hy : x = y := by rw [hrc] at hx; simp at hx; exact hx.symm
      rw [hrc] at ht
      have hmhead : m.head? = some y := by
        rw [← ht]; simp
      have := head_dropWhile_not p l y (by rw [← hm]; exact hmhead)
      rw [hy]; exact this
  rw [hdrop, List.rdropWhile_idempotent]

theorem mem_dropWhile (p : Char → Bool) (l : List Char) :
    ∀ a ∈ List.dropWhile p l, a ∈ l := by
  intro a ha
  exact ( List.dropWhile_suffix p).subset ha

theorem mem_rdropWhile (p : Char → Bool) (l : List Char) :
    ∀ a ∈ List.rdropWhile p l, a ∈ l := by
  intro a ha
  exact ( List.rdropWhile_prefix p l).subset ha

theorem mem_pyStripBy (p : Char → Bool) (l : List Char) :
    ∀ a ∈ pyStripBy p l, a ∈ l := by
  intro a ha
  exact mem_dropWhile p l a (mem_rdropWhile p _ a ha)

theorem mem_foldl_filter (cs : List Char) :
    ∀ (l : List Char) (a : Char),
      a ∈ cs.foldl (fun acc ch => acc.filter (fun c => c ≠ ch)) l ↔
        a ∈ l ∧ ∀ ch ∈ cs, a ≠ ch := by
  induction cs with
  | nil => intro l a; simp
  | cons c cs ih =>
    intro l a
    simp only [List.foldl_cons]
    rw [ih]
    simp only [List.mem_filter, List.mem_cons]
    constructor
    · rintro ⟨⟨hl, hne⟩, hall⟩
      refine ⟨hl, ?_⟩
      intro ch hch
      rcases hch with rfl | hch
      · simpa using hne
      · exact hall ch hch
    · rintro ⟨hl, hall⟩
      refine ⟨⟨hl, by simpa using hall c (Or.inl rfl)⟩, ?_⟩
      intro ch hch
      exact hall ch (Or.inr hch)

theorem mem_removeInvalidChars (l : List Char) (a : Char) :
    a ∈ removeInvalidChars l ↔ a ∈ l ∧ ∀ ch ∈ invalidChars, a ≠ ch :=
  mem_foldl_filter invalidChars l a

theorem foldl_filter_eq_self (cs : List Char) :
    ∀ l : List Char, (∀ a ∈ l, ∀ ch ∈ cs, a ≠ ch) →
      cs.foldl (fun acc ch => acc.filter (fun c => c ≠ ch)) l = l := by
  induction cs with
  | nil => intro l _; rfl
  | cons c cs ih =>
    intro l h
    simp only [List.foldl_cons]
    have hfil : l.filter (fun x => x ≠ c) = l := by
      rw [List.filter_eq_self]
      intro a ha
      simpa using h a ha c (by simp)
    rw [hfil]
    exact ih l (fun a ha ch hch => h a ha ch (by simp [hch]))

theorem removeInvalidChars_eq_self (l : List Char)
    (h : ∀ a ∈ l, ∀ ch ∈ invalidChars, a ≠ ch) :
    removeInvalidChars l = l :=
  foldl_filter_eq_self invalidChars l h

theorem mem_sanitizeL (l : List Char) (a : Char) (ha : a ∈ sanitizeL l) :
    a = ' ' ∨ a ∈ l := by
  unfold sanitizeL at ha
  rcases mem_collapseWs _ a ha with h | h
  · exact Or.inl h
  · have h2 := mem_pyStripBy isSpaceDot _ a h
    exact Or.inr ((mem_removeInvalidChars l a).mp h2).1

theorem sanitizeL_no_invalid (l : List Char) :
    ∀ a ∈ sanitizeL l, ∀ ch ∈ invalidChars, a ≠ ch := by
  intro a ha ch hch
  unfold sanitizeL at ha
  rcases mem_collapseWs _ a ha with h | h
  · subst h
    fin_cases hch <;> decide
  · have h2 := mem_pyStripBy isSpaceDot _ a h
    exact ((mem_removeInvalidChars l a).mp h2).2 ch hch

theorem sanitizeL_collapsed (l : List Char) : collapsedB (sanitizeL l) = true :=
  collapsedB_collapseWs _

/-- Applying `sanitizeL` to its own output strips once more and then fixes. -/
theorem sanitizeL_sanitizeL (l : List Char) :
    sanitizeL (sanitizeL l) = pyStripBy isSpaceDot (sanitizeL l) := by
  set y := sanitizeL l with hy
  have hremove : removeInvalidChars y = y :=
    removeInvalidChars_eq_self y (sanitizeL_no_invalid l)
  have hcoll : collapsedB (pyStripBy isSpaceDot y) = true :=
    collapsedB_pyStripBy _ _ (sanitizeL_collapsed l)
  show collapseWs (pyStripBy isSpaceDot (removeInvalidChars y))
      = pyStripBy isSpaceDot y
  rw [hremove]
  exact collapseWs_of_collapsedB _ hcoll

theorem sanitizeL_fix (l : List Char) :
    sanitizeL (sanitizeL (sanitizeL l)) = sanitizeL (sanitizeL l) := by
  set y := sanitizeL l with hy
  rw [sanitizeL_sanitizeL l]
  set z := pyStripBy isSpaceDot y with hz
  have hmemz : ∀ a ∈ z, a = ' ' ∨ a ∈ l := by
    intro a ha
    exact mem_sanitizeL l a (mem_pyStripBy isSpaceDot y a ha)
  have hnoinv : ∀ a ∈ z, ∀ ch ∈ invalidChars, a ≠ ch := by
    intro a ha
    exact sanitizeL_no_invalid l a (mem_pyStripBy isSpaceDot y a ha)
  have hremove : removeInvalidChars z = z := removeInvalidChars_eq_self z hnoinv
  have hps : pyStripBy isSpaceDot z = z := by
    rw [hz]; exact pyStripBy_idem isSpaceDot y
  have hcoll : collapsedB z = true := by
    rw [hz]
    exact collapsedB_pyStripBy _ _ (sanitizeL_collapsed l)
  show collapseWs (pyStripBy isSpaceDot (removeInvalidChars z)) = z
  rw [hremove, hps]
  exact collapseWs_of_collapsedB _ hcoll

/-! ### Claim C5 -/

/-- **C5, counterexample.** Sanitization is not idempotent as claimed: on
`"a\t"` the first pass turns the trailing tab into a trailing space (the
strip of `" ."` runs before whitespace collapsing), and only the second
pass removes that space. -/
theorem sanitize_filename_not_idempotent :
    sanitize_filename (sanitize_filename "a\t") ≠ sanitize_filename "a\t" := by
  decide

/-- **C5 (amended).** Sanitization is idempotent from the second
application on: for every string, `sanitize_filename ∘ sanitize_filename`
produces a fixed point of `sanitize_filename` (single-pass idempotence
fails only on inputs with non-space whitespace at a boundary). -/
theorem sanitize_filename_eventually_idempotent (s : String) :
    sanitize_filename (sanitize_filename (sanitize_filename s))
      = sanitize_filename (sanitize_filename s) := by
  show String.mk (sanitizeL (String.mk (sanitizeL (String.mk (sanitizeL s.data)).data)).data)
      = String.mk (sanitizeL (String.mk (sanitizeL s.data)).data)
  simp only [String.data]
  exact congrArg String.mk (sanitizeL_fix s.data)

/-! ## A model of `pathlib.PurePosixPath`

A parsed POSIX path: an absolute flag plus the list of components.  As in
`pathlib`, empty components and `"."` components disappear on parsing
while `".."` components are kept. -/

/-- `str.split(sep)` for a single separator character. -/
def splitOnChar (sep : Char) : List Char → List (List Char)
  | [] => [[]]
  | c :: rest =>
    match splitOnChar sep rest with
    | [] => [[]]
    | cur :: done => if c = sep then [] :: cur :: done else (c :: cur) :: done

/-- `str.replace(pat, repl)` (all non-overlapping occurrences, left to
right; only called with nonempty patterns).  The fuel argument is the
input length, enough for the whole scan. -/
def replaceAllL (pat repl : List Char) : Nat → List Char → List Char
  | 0, l => l
  | _, [] => []
  | fuel + 1, c :: rest =>
    if pat.isPrefixOf (c :: rest) then
      repl ++ replaceAllL pat repl fuel (List.drop pat.length (c :: rest))
    else c :: replaceAllL pat repl fuel rest

/-- `str.replace` on strings (nonempty pattern). -/
def strReplace (s pat repl : String) : String :=
  String.mk (replaceAllL pat.data repl.data s.data.length s.data)

structure PyPath where
  absolute : Bool
  parts : List String
deriving DecidableEq, Repr

/-- `pathlib.Path(s)` (POSIX flavour; a doubled leading slash is treated
like a single one). -/
def pathParse (s : String) : PyPath :=
  { absolute := match s.data with | '/' :: _ => true | _ => false
    parts := ((splitOnChar '/' s.data).map String.mk).filter
      (fun c => c ≠ "" && c ≠ ".") }

/-- `Path.name`: the final component (empty for a root or the dot path). -/
def PyPath.name (p : PyPath) : String := p.parts.getLast?.getD ""

/-- `Path.parent`: drop the final component; the root and the dot path are
their own parents. -/
def PyPath.parent (p : PyPath) : PyPath :=
  { absolute := p.absolute, parts := p.parts.dropLast }

/-- `Path(p.anchor)`: the root path for an absolute path, `Path(".")`
otherwise. -/
def PyPath.anchorPath (p : PyPath) : PyPath :=
  { absolute := p.absolute, parts := [] }

/-- `str(path)`. -/
def pyPathStr (p : PyPath) : String :=
  if p.absolute then
    String.mk ('/' :: List.intercalate ['/'] (p.parts.map String.data))
  else if p.parts.isEmpty then "."
  else String.mk (List.intercalate ['/'] (p.parts.map String.data))

/-- Index (from the start) of the last `'.'` of a list, if any. -/
def lastDotIdx (l : List Char) : Option Nat :=
  (l.reverse.findIdx? (fun c => c = '.')).map (fun k => l.length - 1 - k)

/-- `Path.suffix`: the last extension of the final component; empty when
the only dot is leading or trailing (pathlib keeps `.bashrc` and `a.`
extension-free). -/
def PyPath.suffix (p : PyPath) : String :=
  let n := p.name.data
  match lastDotIdx n with
  | none => ""
  | some i => if 0 < i ∧ i < n.length - 1 then String.mk (n.drop i) else ""

/-- `Path.stem`: the final component without `Path.suffix`. -/
def PyPath.stem (p : PyPath) : String :=
  let n := p.name.data
  match lastDotIdx n with
  | none => p.name
  | some i => if 0 < i ∧ i < n.length - 1 then String.mk (n.take i) else p.name

/-- `path / segment` (`Path.joinpath` with one string argument). -/
def pyJoin (p : PyPath) (seg : String) : PyPath :=
  let q := pathParse seg
  if q.absolute then q
  else { absolute := p.absolute, parts := p.parts ++ q.parts }

/-! ## Filesystem state

File contents, permissions and inode identity are not modelled: a
filesystem is the list of file paths and the list of directory paths that
exist.  "The source file is unmodified" is rendered as "`files` is
unchanged". -/

structure FS where
  files : List PyPath
  dirs : List PyPath
deriving DecidableEq, Repr

/-- `Path.exists()`. -/
def FS.pathExists (fs : FS) (p : PyPath) : Bool :=
  p ∈ fs.files || p ∈ fs.dirs

/-- The directories `Path.mkdir(parents=True, exist_ok=True)` ensures:
every nonempty prefix of the component list. -/
def mkdirAncestors (p : PyPath) : List PyPath :=
  (List.range p.parts.length).map
    (fun n => { absolute := p.absolute, parts := p.parts.take (n + 1) })

/-- `mkdir(parents=True, exist_ok=True)` on the model. -/
def FS.mkdirParents (fs : FS) (p : PyPath) : FS :=
  { fs with dirs := mkdirAncestors p ++ fs.dirs }

/-! ## `RenameService` (rename_service.py) and its template data

The default `NamingTemplate` (models/template.py) is

* series folder: `{title} ({year}) [tmdbid-{tmdb_id}]`
* season folder: `Season {season}`
* episode file : `{title} - S{season:02d}E{episode:02d} - {episode_title}`

and `RenameService._build_template_data` fills `year`/`tmdb_id` with
`request.year or ""` / `request.tmdb_id or ""` (so a missing — or zero —
value interpolates as the empty string) and `episode_title` with
`request.episode_title or ""`. -/

inductive OrganizeMode where
  | copy
  | move
  | hardlink
  | symlink
  | inplace
deriving DecidableEq, Repr

structure RenameRequest where
  source_path : String
  title : String
  season : Nat
  episode : Nat
  episode_title : Option String := none
  year : Option Nat := none
  tmdb_id : Option Nat := none
  output_dir : Option String := none
  link_mode : Option OrganizeMode := none
deriving DecidableEq, Repr

structure RenameResult where
  source_path : String
  dest_path : String
  success : Bool
  error : Option String := none
  backup_path : Option String := none
deriving DecidableEq, Repr

/-- `{n:02d}`. -/
def pad2 (n : Nat) : String :=
  if n < 10 then "0" ++ toString n else toString n

/-- `value or ""` interpolated into a template (`0` is falsy in Python). -/
def optNatInterp (v : Option Nat) : String :=
  match v with
  | none => ""
  | some n => if n = 0 then "" else toString n

/-- The episode-file default template applied to the template data. -/
def renderEpisodeFile (title : String) (season episode : Nat)
    (episodeTitle : String) : String :=
  title ++ " - S" ++ pad2 season ++ "E" ++ pad2 episode ++ " - " ++ episodeTitle

/-- The series-folder default template applied to the template data. -/
def renderSeriesFolder (title : String) (year tmdbId : Option Nat) : String :=
  title ++ " (" ++ optNatInterp year ++ ") [tmdbid-" ++ optNatInterp tmdbId ++ "]"

/-- The season-folder default template applied to the template data. -/
def renderSeasonFolder (season : Nat) : String :=
  "Season " ++ toString season

/-- The path components `RenameService.preview_rename` computes (the
`will_create_dirs` listing of the preview is omitted: it is informational
and no claim touches it). -/
structure RenamePaths where
  source : PyPath
  dest_folder : PyPath
  dest_path : PyPath
  new_filename : String
deriving DecidableEq, Repr

/-- `RenameService.preview_rename`, as path computation: format each
default template, sanitize it, remove the ` ()` / ` [tmdbid-]` artifacts
of empty interpolation from the series folder, and join below the output
directory (or the source's directory when `output_dir` is unset/empty). -/
def preview_rename (req : RenameRequest) : RenamePaths :=
  let source := pathParse req.source_path
  let extension := source.suffix
  let new_filename :=
    sanitize_filename
      (renderEpisodeFile req.title req.season req.episode
        ((req.episode_title.getD ""))) ++ extension
  let series_folder :=
    strReplace
      (strReplace (sanitize_filename (renderSeriesFolder req.title req.year req.tmdb_id))
        " ()" "")
      " [tmdbid-]" ""
  let season_folder := sanitize_filename (renderSeasonFolder req.season)
  let base_dir :=
    match req.output_dir with
    | some od => if od = "" then source.parent else pathParse od
    | none => source.parent
  let dest_folder := pyJoin (pyJoin base_dir series_folder) season_folder
  { source := source
    dest_folder := dest_folder
    dest_path := pyJoin dest_folder new_filename
    new_filename := new_filename }

/-- `RenameService._execute_file_operation`: the systemic effect of the
four link modes on the file set (`INPLACE` never reaches this point with
its own tag — the orchestrator rewrites it to `MOVE` — and the `else`
branch of the source also treats it as a move).  `copy2`/`os.link`/
`os.symlink` onto the source itself raise `OSError`; that corner is the
only operation failure the model represents, since permissions are not
modelled. -/
def executeFileOperation (source dest : PyPath) (mode : OrganizeMode)
    (fs : FS) : Option FS :=
  match mode with
  | .copy => if dest = source then none else some { fs with files := dest :: fs.files }
  | .hardlink => if dest = source then none else some { fs with files := dest :: fs.files }
  | .symlink => if dest = source then none else some { fs with files := dest :: fs.files }
  | .move => some { fs with files := dest :: fs.files.erase source }
  | .inplace => some { fs with files := dest :: fs.files.erase source }

/-- `RenameService.execute_rename` (with `create_backup=False`, the only
value the orchestrator ever passes): check the source, compute the preview
paths, create the destination directory tree, refuse an existing
destination that is not the source, then perform the file operation. -/
def execute_rename (req : RenameRequest) (fs : FS) : RenameResult × FS :=
  let source := pathParse req.source_path
  if fs.pathExists source = false then
    ({ source_path := pyPathStr source, dest_path := "", success := false,
       error := some ("Source file not found: " ++ pyPathStr source) }, fs)
  else
    let pv := preview_rename req
    let fs1 := fs.mkdirParents pv.dest_folder
    if fs1.pathExists pv.dest_path = true ∧ pv.dest_path ≠ source then
      ({ source_path := pyPathStr source, dest_path := pyPathStr pv.dest_path,
         success := false,
         error := some ("Destination file already exists: " ++ pyPathStr pv.dest_path) },
       fs1)
    else
      match executeFileOperation source pv.dest_path (req.link_mode.getD .move) fs1 with
      | some fs2 =>
        ({ source_path := pyPathStr source, dest_path := pyPathStr pv.dest_path,
           success := true }, fs2)
      | none =>
        ({ source_path := pyPathStr source, dest_path := pyPathStr pv.dest_path,
           success := false, error := some "OS error: same file" }, fs1)

/-! ### Claim C10 -/

/-- **C10.** `execute_rename` runs `mkdir(parents=True)` on the computed
destination folder before it checks whether the destination file exists:
on the destination-exists failure path the returned filesystem has gained
the whole destination directory chain (which is exactly the prior `dirs`
plus every prefix of the destination folder), while the file set — in
particular the source file — is unchanged. -/
theorem execute_rename_creates_dirs_before_conflict_check
    (req : RenameRequest) (fs : FS) (src : PyPath) (pv : RenamePaths)
    (hsp : pathParse req.source_path = src)
    (hpv : preview_rename req = pv)
    (hsrc : fs.pathExists src = true)
    (hdest : fs.pathExists pv.dest_path = true)
    (hne : pv.dest_path ≠ src) :
    (execute_rename req fs).1.success = false ∧
    (execute_rename req fs).2.files = fs.files ∧
    (execute_rename req fs).2.dirs = mkdirAncestors pv.dest_folder ++ fs.dirs ∧
    ∀ d ∈ mkdirAncestors pv.dest_folder, d ∈ (execute_rename req fs).2.dirs := by
  have hdest1 : (fs.mkdirParents pv.dest_folder).pathExists pv.dest_path = true := by
    unfold FS.pathExists at hdest ⊢
    unfold FS.mkdirParents
    rcases Bool.or_eq_true_iff.mp hdest with h | h
    · simp only [Bool.or_eq_true_iff]
      exact Or.inl h
    · simp only [Bool.or_eq_true_iff, List.mem_append] at h ⊢
      simp only [decide_eq_true_eq] at h ⊢
      exact Or.inr (Or.inr h)
  have hsrcF : ¬ fs.pathExists src = false := by
    simp [hsrc]
  simp only [execute_rename]
  rw [hsp, hpv, if_neg hsrcF, if_pos ⟨hdest1, hne⟩]
  refine ⟨rfl, rfl, rfl, ?_⟩
  intro d hd
  show d ∈ (fs.mkdirParents pv.dest_folder).dirs
  unfold FS.mkdirParents
  exact List.mem_append_left _ hd

/-- **C10, witness.** A concrete failing rename: the destination computed
for the request already exists, the source is a different file, and the
run leaves the two fresh directories behind while the file set is
untouched. -/
theorem execute_rename_creates_dirs_witness :
    (execute_rename
        { source_path := "/in/src.mkv", title := "Show", season := 1,
          episode := 2, year := some 2020, tmdb_id := some 10,
          output_dir := some "/out" }
        { files := [pathParse "/in/src.mkv",
                    pathParse "/out/Show (2020) [tmdbid-10]/Season 1/Show - S01E02 -.mkv"],
          dirs := [] }).1.success = false ∧
    (execute_rename
        { source_path := "/in/src.mkv", title := "Show", season := 1,
          episode := 2, year := some 2020, tmdb_id := some 10,
          output_dir := some "/out" }
        { files := [pathParse "/in/src.mkv",
                    pathParse "/out/Show (2020) [tmdbid-10]/Season 1/Show - S01E02 -.mkv"],
          dirs := [] }).2.dirs ≠ [] := by
  have h := execute_rename_creates_dirs_before_conflict_check
    { source_path := "/in/src.mkv", title := "Show", season := 1,
      episode := 2, year := some 2020, tmdb_id := some 10,
      output_dir := some "/out" }
    { files := [pathParse "/in/src.mkv",
                pathParse "/out/Show (2020) [tmdbid-10]/Season 1/Show - S01E02 -.mkv"],
      dirs := [] }
    (pathParse "/in/src.mkv")
    (preview_rename
      { source_path := "/in/src.mkv", title := "Show", season := 1,
        episode := 2, year := some 2020, tmdb_id := some 10,
        output_dir := some "/out" })
    rfl rfl (by decide) (by decide) (by decide)
  refine ⟨h.1, ?_⟩
  rw [h.2.2.1]
  decide

/-! ## Scanning helpers for the hand-compiled regular expressions

Every regex of the sources is hand-compiled to a scanning function; each
such function carries the original pattern in its doc comment.  `re.search`
semantics (leftmost match wins) is `findLeftmost`; `re.sub` semantics is
`subAll` (global, left to right, restarting after each match).  None of
the compiled patterns can match the empty string, so the zero-length guard
of `subAllF` is never taken. -/

def findLeftmost {α : Type} (m : List Char → Option α) : List Char → Option (Nat × α)
  | [] =>
    match m [] with
    | some a => some (0, a)
    | none => none
  | c :: rest =>
    match m (c :: rest) with
    | some a => some (0, a)
    | none => (findLeftmost m rest).map (fun pa => (pa.1 + 1, pa.2))

/-- Global substitution; the matcher returns the length of the match at
the head of its argument.  Fuel is the input length. -/
def subAllF (m : List Char → Option Nat) (repl : List Char) :
    Nat → List Char → List Char
  | 0, l => l
  | _, [] => []
  | fuel + 1, c :: rest =>
    match m (c :: rest) with
    | some k =>
      if k = 0 then c :: subAllF m repl fuel rest
      else repl ++ subAllF m repl fuel (List.drop k (c :: rest))
    | none => c :: subAllF m repl fuel rest

def subAll (m : List Char → Option Nat) (repl : List Char) (l : List Char) :
    List Char :=
  subAllF m repl l.length l

/-- Try match lengths from `cap` down to 1 (greedy with backtracking). -/
def tryLengths {α : Type} (cap : Nat) (f : Nat → Option α) : Option α :=
  (List.range cap).reverse.findSome? (fun i => f (i + 1))

/-- ASCII-case-insensitive literal at the head (`re.I` on ASCII text). -/
def matchLitCI (pat : List Char) (l : List Char) : Bool :=
  match pat, l with
  | [], _ => true
  | _ :: _, [] => false
  | p :: ps, c :: cs => p.toLower = c.toLower && matchLitCI ps cs

/-- Hiragana block `[ぁ-ん]`. -/
def isHiragana (c : Char) : Bool := 0x3041 ≤ c.val && c.val ≤ 0x3093

/-- The censoring glyphs `[〇○]`. -/
def isCensorGlyph (c : Char) : Bool := c == '〇' || c == '○'

/-- The kanji numerals `一二三四五六七八九十百千` of the volume patterns. -/
def isKanjiNumeral (c : Char) : Bool :=
  c == '一' || c == '二' || c == '三' || c == '四' || c == '五' ||
  c == '六' || c == '七' || c == '八' || c == '九' || c == '十' ||
  c == '百' || c == '千'

/-! ## TMDB data model (models/tmdb.py)

`vote_average` fields are machine floats in the source; no claim touches
them, so they are omitted from the embedding.  Dates are embedded as a
`year/month/day` record (the code only ever reads `.year`). -/

structure PyDate where
  year : Nat
  month : Nat
  day : Nat
deriving DecidableEq, Repr

structure TMDBSearchResult where
  id : Nat
  name : String
  original_name : Option String := none
  first_air_date : Option PyDate := none
  poster_path : Option String := none
  overview : Option String := none
  adult : Bool := false
  number_of_seasons : Option Nat := none
  number_of_episodes : Option Nat := none
deriving DecidableEq, Repr

structure TMDBSearchResponse where
  query : String
  total_results : Nat
  results : List TMDBSearchResult
  effective_query : Option String := none
deriving DecidableEq, Repr

structure TMDBEpisode where
  episode_number : Nat
  name : String
  overview : Option String := none
  air_date : Option PyDate := none
  still_path : Option String := none
deriving DecidableEq, Repr

structure TMDBSeason where
  season_number : Nat
  name : String
  overview : Option String := none
  air_date : Option PyDate := none
  poster_path : Option String := none
  episode_count : Option Nat := none
  episodes : Option (List TMDBEpisode) := none
deriving DecidableEq, Repr

structure TMDBSeries where
  id : Nat
  name : String
  original_name : Option String := none
  overview : Option String := none
  first_air_date : Option PyDate := none
  poster_path : Option String := none
  backdrop_path : Option String := none
  genres : List String := []
  status : Option String := none
  number_of_seasons : Option Nat := none
  number_of_episodes : Option Nat := none
  seasons : List TMDBSeason := []
deriving DecidableEq, Repr

/-! ## `TMDBService` (tmdb_service.py)

HTTP is an oracle: for each endpoint the environment supplies the outcome
of the request as a function of its argument.  A completed response
carries the HTTP status code and the already-parsed payload (the JSON
decoding layer of `search_series_by_api` / `_parse_series_json` /
`_parse_season_json` is collapsed into the oracle). -/

inductive HttpOutcome (α : Type) where
  | timeout
  | connError (msg : String)
  | valueErr (msg : String)
  | resp (status : Nat) (payload : α)
deriving DecidableEq, Repr

inductive TmdbErr where
  | notConfigured
  | timeout
  | connError (msg : String)
  | valueErr (msg : String)
deriving DecidableEq, Repr

/-- A search response body: the parsed `results` items plus
`total_results`. -/
structure SearchBody where
  items : List TMDBSearchResult
  total : Nat
deriving DecidableEq, Repr

/-- `TMDBService.search_series_by_api`: a non-200 completed response
yields an *empty* successful response; timeouts, connection errors and
JSON errors propagate; a missing token raises `TMDBNotConfiguredError`
inside `_make_api_request`. -/
def search_series_by_api (token : Option String)
    (http : String → HttpOutcome SearchBody) (query : String) :
    Except TmdbErr TMDBSearchResponse :=
  match token with
  | none => .error .notConfigured
  | some _ =>
    match http query with
    | .timeout => .error .timeout
    | .connError m => .error (.connError m)
    | .valueErr m => .error (.valueErr m)
    | .resp status body =>
      if status ≠ 200 then
        .ok { query := query, total_results := 0, results := [] }
      else
        .ok { query := query, total_results := body.total,
              results := body.items.take 20 }

/-- `[〇○]+` replaced by the empty string: the censoring glyphs are
filtered out. -/
def stripCensor (l : List Char) : List Char :=
  l.filter (fun c => !(isCensorGlyph c))

def openDelims : List Char := ['[', '【', '（', '(']

def closeDelims : List Char := [']', '】', '）', ')']

/-- `[\[【（(][^\]】）)]*[\]】）)]` at the head: an opening delimiter, a
maximal run free of closing delimiters, one closing delimiter. -/
def matchDelimGroup (l : List Char) : Option Nat :=
  match l with
  | [] => none
  | c :: rest =>
    if c ∈ openDelims then
      let inner := rest.takeWhile (fun x => !(x ∈ closeDelims))
      match rest.drop inner.length with
      | x :: _ => if x ∈ closeDelims then some (1 + inner.length + 1) else none
      | [] => none
    else none

/-- `re.sub(r"[\[【（(][^\]】）)]*[\]】）)]", " ", ·)`. -/
def stripDelimGroups (l : List Char) : List Char :=
  subAll matchDelimGroup [' '] l

/-- `^[〇○]+[ぁ-ん]*` removed (anchored, so a single replacement). -/
def stripCensorHiraganaHead (l : List Char) : List Char :=
  match l with
  | c :: _ =>
    if isCensorGlyph c then
      (l.dropWhile isCensorGlyph).dropWhile isHiragana
    else l
  | [] => l

/-- `第[一二三四五六七八九十百千\d]+[巻話編章]` at the head. -/
def matchDaiVolume (l : List Char) : Option Nat :=
  match l with
  | c :: rest =>
    if c = '第' then
      let run := rest.takeWhile (fun x => isKanjiNumeral x || isDigit x)
      if run.isEmpty then none
      else
        match rest.drop run.length with
        | x :: _ =>
          if x = '巻' ∨ x = '話' ∨ x = '編' ∨ x = '章' then
            some (1 + run.length + 1)
          else none
        | [] => none
    else none
  | [] => none

/-- `[Vv]ol\.?\s*\d+` at the head. -/
def matchVolDotNum (l : List Char) : Option Nat :=
  match l with
  | c :: 'o' :: 'l' :: rest =>
    if c = 'V' ∨ c = 'v' then
      let afterDot := if rest.head? = some '.' then rest.drop 1 else rest
      let dotLen := if rest.head? = some '.' then 1 else 0
      let ws := afterDot.takeWhile isPyWs
      let digits := (afterDot.drop ws.length).takeWhile isDigit
      if digits.isEmpty then none
      else some (3 + dotLen + ws.length + digits.length)
    else none
  | _ => none

/-- A two-character volume marker `下[巻卷]|上[巻卷]|前[編篇]|後[編篇]`
or the three-character `完結[編篇]` at the head. -/
def matchFixedVolume (l : List Char) : Option Nat :=
  match l with
  | a :: b :: rest =>
    if (a = '下' ∨ a = '上') ∧ (b = '巻' ∨ b = '卷') then some 2
    else if (a = '前' ∨ a = '後') ∧ (b = '編' ∨ b = '篇') then some 2
    else
      match rest with
      | c :: _ =>
        if a = '完' ∧ b = '結' ∧ (c = '編' ∨ c = '篇') then some 3 else none
      | [] => none
  | _ => none

/-- The alternation `volume_pat` of `_generate_fallback_queries`
(alternatives tried in source order). -/
def matchVolumeMarker (l : List Char) : Option Nat :=
  match matchFixedVolume l with
  | some k => some k
  | none =>
    match matchDaiVolume l with
    | some k => some k
    | none => matchVolDotNum l

/-- `re.sub(volume_pat, "", ·)`. -/
def stripVolumeMarkers (l : List Char) : List Char :=
  subAll matchVolumeMarker [] l

/-- `^(?:OVA|OAD|ONA)\s+` removed, case-insensitively (anchored). -/
def stripOvaHead (l : List Char) : List Char :=
  if matchLitCI ['O', 'V', 'A'] l || matchLitCI ['O', 'A', 'D'] l ||
      matchLitCI ['O', 'N', 'A'] l then
    let rest := l.drop 3
    let ws := rest.takeWhile isPyWs
    if ws.isEmpty then l else rest.drop ws.length
  else l

/-- `re.sub(r"\s+\d+\s*$", "", ·)`: remove one trailing
whitespace-digits(-whitespace) chunk, when present. -/
def stripTrailingNum (l : List Char) : List Char :=
  let r := l.reverse
  let r1 := r.dropWhile isPyWs
  let digits := r1.takeWhile isDigit
  if digits.isEmpty then l
  else
    let r2 := r1.drop digits.length
    match r2 with
    | c :: _ => if isPyWs c then (r2.dropWhile isPyWs).reverse else l
    | [] => l

/-- The normalisation inside `add`: `re.sub(r"\s+", " ", q).strip()`. -/
def normalizeQuery (l : List Char) : List Char :=
  pyStripBy isPyWs (collapseWs l)

/-- `TMDBService._generate_fallback_queries`: candidate queries in order,
deduplicated against the original and each other, length ≥ 2. -/
def generate_fallback_queries (query : String) : List String :=
  let q := query.data
  let addQ := fun (st : List String × List String) (cand : List Char) =>
    let cs := String.mk (normalizeQuery cand)
    if cs ≠ "" ∧ cs ∉ st.2 ∧ cs.data.length ≥ 2 then
      (st.1 ++ [cs], cs :: st.2)
    else st
  let st0 : List String × List String := ([], [query])
  let q1 := stripCensor q
  let st1 := addQ st0 q1
  let q2 := stripDelimGroups q
  let st2 := addQ st1 q2
  let q3 := stripCensor q2
  let st3 := addQ st2 q3
  let q4 := stripCensorHiraganaHead q
  let st4 := addQ st3 q4
  let q5 := pyStripBy isPyWs (stripVolumeMarkers q)
  let st5 := addQ st4 q5
  let q6 := pyStripBy isPyWs (collapseWs (stripDelimGroups (stripCensor q5)))
  let st6 := addQ st5 q6
  let q7 := stripOvaHead q
  let st7 := addQ st6 q7
  let q8 := pyStripBy isPyWs (stripTrailingNum q)
  let st8 := addQ st7 q8
  let q9 := stripOvaHead q8
  let st9 := addQ st8 q9
  st9.1

/-- The candidate loop of `TMDBService.search_series_with_fallback`. -/
def searchFallbackLoop (token : Option String)
    (http : String → HttpOutcome SearchBody) (query : String) :
    List String → Except TmdbErr TMDBSearchResponse
  | [] => .ok { query := query, total_results := 0, results := [] }
  | cand :: rest =>
    match search_series_by_api token http cand with
    | .error e => .error e
    | .ok fb =>
      if fb.results ≠ [] then
        .ok { query := query, total_results := fb.total_results,
              results := fb.results, effective_query := some cand }
      else searchFallbackLoop token http query rest

/-- `TMDBService.search_series_with_fallback`: primary search first, then
the fallback candidates in order, stopping at the first nonempty result
set and recording it in `effective_query`. -/
def search_series_with_fallback (token : Option String)
    (http : String → HttpOutcome SearchBody) (query : String) :
    Except TmdbErr TMDBSearchResponse :=
  match search_series_by_api token http query with
  | .error e => .error e
  | .ok r =>
    if r.results ≠ [] then .ok r
    else searchFallbackLoop token http query (generate_fallback_queries query)

/-- `TMDBService.get_series_by_api`: 404 and any other non-200 status
yield `None`; transport and JSON errors propagate. -/
def get_series_by_api (token : Option String)
    (http : Nat → HttpOutcome TMDBSeries) (tmdb_id : Nat) :
    Except TmdbErr (Option TMDBSeries) :=
  match token with
  | none => .error .notConfigured
  | some _ =>
    match http tmdb_id with
    | .timeout => .error .timeout
    | .connError m => .error (.connError m)
    | .valueErr m => .error (.valueErr m)
    | .resp status body =>
      if status = 404 then .ok none
      else if status ≠ 200 then .ok none
      else .ok (some body)

/-- `TMDBService.get_season_by_api` (same failure scheme). -/
def get_season_by_api (token : Option String)
    (http : Nat → Nat → HttpOutcome TMDBSeason) (tmdb_id season_number : Nat) :
    Except TmdbErr (Option TMDBSeason) :=
  match token with
  | none => .error .notConfigured
  | some _ =>
    match http tmdb_id season_number with
    | .timeout => .error .timeout
    | .connError m => .error (.connError m)
    | .valueErr m => .error (.valueErr m)
    | .resp status body =>
      if status = 404 then .ok none
      else if status ≠ 200 then .ok none
      else .ok (some body)

/-! ## Parser data model (models/parser.py, parsers/base.py)

`confidence` is a machine float in the source; it is embedded as an exact
rational (only sums of decimal constants and a clamp occur).
`ParsedInfo` in the source does not declare `matched_patterns`, so the
value passed by `ParserService.parse` is dropped by pydantic; the
embedding mirrors the declared model. -/

structure ParseContext where
  original_filename : String
  filepath : Option String := none
  cleaned_filename : String := ""
  series_name : Option String := none
  season : Option Nat := none
  episode : Option Nat := none
  year : Option Nat := none
  tmdb_id : Option Nat := none
  confidence : Rat := 0
  matched_patterns : List String := []
deriving DecidableEq, Repr

structure ParsedInfo where
  original_filename : String
  series_name : Option String := none
  season : Option Nat := none
  episode : Option Nat := none
  episode_title : Option String := none
  year : Option Nat := none
  tmdb_id : Option Nat := none
  is_parsed : Bool := false
  confidence : Rat := 0
deriving DecidableEq, Repr

/-! ## `FolderContextPlugin` (parsers/folder_context.py) -/

/-- `^[Ss]eason` at the head, returning the remainder. -/
def matchSeasonWord : List Char → Option (List Char)
  | c :: 'e' :: 'a' :: 's' :: 'o' :: 'n' :: rest =>
    if c = 'S' ∨ c = 's' then some rest else none
  | _ => none

/-- `SEASON_FOLDER_PATTERN`: full match of
`^[Ss]eason\s*\d+$|^[Ss]\d{1,2}$`. -/
def seasonFolderMatch (s : String) : Bool :=
  let l := s.data
  (match matchSeasonWord l with
   | some rest =>
     let afterWs := rest.dropWhile isPyWs
     let digits := afterWs.takeWhile isDigit
     !digits.isEmpty && decide (afterWs.drop digits.length = [])
   | none => false) ||
  (match l with
   | c :: rest =>
     decide (c = 'S' ∨ c = 's') &&
       (let digits := rest.takeWhile isDigit
        !digits.isEmpty && decide (digits.length ≤ 2) &&
          decide (rest.drop digits.length = []))
   | [] => false)

/-- `[Ss]eason\s*(\d+)` at the head. -/
def seasonNumAlt1 (l : List Char) : Option Nat :=
  match matchSeasonWord l with
  | some rest =>
    let afterWs := rest.dropWhile isPyWs
    let digits := afterWs.takeWhile isDigit
    if digits.isEmpty then none else some (digitsToNat digits)
  | none => none

/-- `^[Ss](\d{1,2})$` as a full match. -/
def seasonNumAlt2 (l : List Char) : Option Nat :=
  match l with
  | c :: rest =>
    if c = 'S' ∨ c = 's' then
      let digits := rest.takeWhile isDigit
      if ¬digits.isEmpty ∧ digits.length ≤ 2 ∧ rest.drop digits.length = [] then
        some (digitsToNat digits)
      else none
    else none
  | [] => none

/-- `SEASON_NUMBER_PATTERN.search`: `[Ss]eason\s*(\d+)|^[Ss](\d{1,2})$` —
at position 0 both alternatives are tried in order, later positions can
only start the first. -/
def seasonNumberSearch (l : List Char) : Option Nat :=
  match seasonNumAlt1 l with
  | some n => some n
  | none =>
    match seasonNumAlt2 l with
    | some n => some n
    | none =>
      match l with
      | [] => none
      | _ :: rest => (findLeftmost seasonNumAlt1 rest).map (fun pa => pa.2)

/-- `TMDB_ID_PATTERN` = `\[tmdb(?:id)?[-:](\d+)\]` (case-insensitive) at
the head, returning (matched length, captured id). -/
def tmdbTagAt (l : List Char) : Option (Nat × Nat) :=
  match l with
  | '[' :: rest =>
    if matchLitCI ['t', 'm', 'd', 'b'] rest then
      let tryTail := fun (consumed : Nat) (r : List Char) =>
        match r with
        | sep :: r2 =>
          if sep = '-' ∨ sep = ':' then
            let digits := r2.takeWhile isDigit
            if digits.isEmpty then none
            else
              match r2.drop digits.length with
              | ']' :: _ =>
                some (1 + consumed + 1 + digits.length + 1, digitsToNat digits)
              | _ => none
          else none
        | [] => none
      let rest2 := rest.drop 4
      if matchLitCI ['i', 'd'] rest2 then
        match tryTail 6 (rest2.drop 2) with
        | some r => some r
        | none => tryTail 4 rest2
      else tryTail 4 rest2
    else none
  | _ => none

/-- `TMDB_ID_PATTERN.search(...).group(1)`. -/
def tmdbIdSearch (l : List Char) : Option Nat :=
  (findLeftmost tmdbTagAt l).map (fun pa => pa.2.2)

/-- `(?:19|20)\d{2}` at the head. -/
def yearCoreAt (l : List Char) : Option Nat :=
  match l with
  | d1 :: d2 :: d3 :: d4 :: _ =>
    if ((d1 = '1' ∧ d2 = '9') ∨ (d1 = '2' ∧ d2 = '0')) ∧ isDigit d3 ∧ isDigit d4
    then some (digitsToNat [d1, d2, d3, d4])
    else none
  | _ => none

/-- `FOLDER_YEAR_PATTERN` = `[\[\(]((?:19|20)\d{2})[\]\)]` at the head,
returning (length, year). -/
def folderYearAt (l : List Char) : Option (Nat × Nat) :=
  match l with
  | b :: rest =>
    if b = '[' ∨ b = '(' then
      match yearCoreAt rest with
      | some y =>
        match rest.drop 4 with
        | e :: _ => if e = ']' ∨ e = ')' then some (6, y) else none
        | [] => none
      | none => none
    else none
  | [] => none

/-- `FOLDER_YEAR_PATTERN.search(...).group(1)`. -/
def folderYearSearch (l : List Char) : Option Nat :=
  (findLeftmost folderYearAt l).map (fun pa => pa.2.2)

/-- `\[[^\]]*\]` at the head (length). -/
def bracketGroupLenAt : List Char → Option Nat
  | '[' :: rest =>
    let inner := rest.takeWhile (fun c => c ≠ ']')
    (match rest.drop inner.length with
     | ']' :: _ => some (inner.length + 2)
     | _ => none)
  | _ => none

/-- `\([^\)]*\)` at the head (length). -/
def parenGroupLenAt : List Char → Option Nat
  | '(' :: rest =>
    let inner := rest.takeWhile (fun c => c ≠ ')')
    (match rest.drop inner.length with
     | ')' :: _ => some (inner.length + 2)
     | _ => none)
  | _ => none

/-- The four `_BRACKET_CLEAN_PATTERNS` substitutions, applied in source
order: tmdb tags, bracketed/parenthesised years, any remaining `[...]`,
any remaining `(...)` — each replaced by the empty string. -/
def stripBracketClean (l : List Char) : List Char :=
  let s1 := subAll (fun t => (tmdbTagAt t).map (fun pa => pa.1)) [] l
  let s2 := subAll (fun t => (folderYearAt t).map (fun pa => pa.1)) [] s1
  let s3 := subAll bracketGroupLenAt [] s2
  subAll parenGroupLenAt [] s3

/-- `_VOLUME_SPLIT_PATTERN` at the head: `\s+(volume alternatives)`,
returning the captured group text. -/
def volumeSplitAt (l : List Char) : Option (List Char) :=
  let ws := l.takeWhile isPyWs
  if ws.isEmpty then none
  else
    let rest := l.drop ws.length
    (matchVolumeMarker rest).map (fun k => rest.take k)

/-- `[Vv]ol\.?\s*(\d+)` at the head (captured number). -/
def volNumAt (l : List Char) : Option Nat :=
  match l with
  | c :: 'o' :: 'l' :: rest =>
    if c = 'V' ∨ c = 'v' then
      let afterDot := if rest.head? = some '.' then rest.drop 1 else rest
      let digits := (afterDot.dropWhile isPyWs).takeWhile isDigit
      if digits.isEmpty then none else some (digitsToNat digits)
    else none
  | _ => none

/-- `第(\d+)[巻話編章]` at the head (Arabic digits only). -/
def daiNumAt (l : List Char) : Option Nat :=
  match l with
  | c :: rest =>
    if c = '第' then
      let digits := rest.takeWhile isDigit
      if digits.isEmpty then none
      else
        match rest.drop digits.length with
        | x :: _ =>
          if x = '巻' ∨ x = '話' ∨ x = '編' ∨ x = '章' then
            some (digitsToNat digits)
          else none
        | [] => none
    else none
  | [] => none

/-- `_episode_from_volume_marker`: `Vol.N` → N, `第N[巻話編章]` → N,
`上/前` → 1, `下/後` → 2. -/
def episode_from_volume_marker (vol : List Char) : Option Nat :=
  match findLeftmost volNumAt vol with
  | some (_, n) => some n
  | none =>
    match findLeftmost daiNumAt vol with
    | some (_, n) => some n
    | none =>
      match vol with
      | c :: _ =>
        if c = '上' ∨ c = '前' then some 1
        else if c = '下' ∨ c = '後' then some 2
        else none
      | [] => none

/-- The strip set `" -_."` used on folder/series names. -/
def isNameStripChar (c : Char) : Bool :=
  c == ' ' || c == '-' || c == '_' || c == '.'

/-- `(?:\s+[＃#♯]\s*|\s+)(\d{1,3})\s*$` at the head (captured number).
Both alternation branches are tried in order.  The digit run must be at
most three long and only whitespace may follow it (a shorter greedy
prefix would abut a digit and fail the `\s*$`). -/
def trailingEpAt (l : List Char) : Option Nat :=
  let ws := l.takeWhile isPyWs
  if ws.isEmpty then none
  else
    let rest := l.drop ws.length
    let digitsToEnd := fun (r : List Char) =>
      let digits := r.takeWhile isDigit
      if ¬digits.isEmpty ∧ digits.length ≤ 3 ∧
          (r.drop digits.length).dropWhile isPyWs = [] then
        some (digitsToNat digits)
      else none
    match rest with
    | c :: r2 =>
      if c = '＃' ∨ c = '#' ∨ c = '♯' then
        match digitsToEnd (r2.dropWhile isPyWs) with
        | some n => some n
        | none => digitsToEnd rest
      else digitsToEnd rest
    | [] => none

/-- `_detect_series_folder`: walk up from the file, recognise a `Season`
folder, and refuse series folders that sit directly under the filesystem
root (`candidate.parent == Path(candidate.anchor)`). -/
def detect_series_folder (filepath : String) : Option PyPath × Option Nat :=
  let path := pathParse filepath
  let parent := path.parent
  if seasonFolderMatch parent.name then
    let season_num := seasonNumberSearch parent.name.data
    let candidate := parent.parent
    if candidate.name ≠ "" then
      if candidate.parent = candidate.anchorPath then (none, none)
      else (some candidate, season_num)
    else (none, none)
  else
    if parent.parent = parent.anchorPath then (none, none)
    else (some parent, none)

/-- `FolderContextPlugin.should_skip`: skip when `filepath` is absent or
empty (`not ctx.filepath`). -/
def folderContextShouldSkip (ctx : ParseContext) : Bool :=
  ctx.filepath.getD "" = ""

/-- Step 0 of `FolderContextPlugin.parse`: season from the Season folder
(only when still unset). -/
def fcSeasonStep (season_from_path : Option Nat) (ctx : ParseContext) :
    ParseContext :=
  match season_from_path with
  | some sn =>
    if ctx.season = none then
      { ctx with season := some sn,
                 matched_patterns := ctx.matched_patterns ++ ["folder_context:season"] }
    else ctx
  | none => ctx

/-- Step 1 of `FolderContextPlugin.parse`: the TMDB id tag. -/
def fcTmdbStep (folder_name : String) (ctx : ParseContext) : ParseContext :=
  match tmdbIdSearch folder_name.data with
  | some tid =>
    if ctx.tmdb_id = none then
      { ctx with tmdb_id := some tid,
                 matched_patterns := ctx.matched_patterns ++ ["folder_context:tmdb_id"] }
    else ctx
  | none => ctx

/-- Step 2 of `FolderContextPlugin.parse`: the bracketed year, bounds
checked. -/
def fcYearStep (folder_name : String) (ctx : ParseContext) : ParseContext :=
  if ctx.year = none then
    match folderYearSearch folder_name.data with
    | some y =>
      if 1950 ≤ y ∧ y ≤ 2030 then
        { ctx with year := some y,
                   matched_patterns := ctx.matched_patterns ++ ["folder_context:year"] }
      else ctx
    | none => ctx
  else ctx

/-- The volume-marker cut of step 3: truncate at the first marker and
harvest its episode number when none is known yet. -/
def fcVolumeCut (name0 : List Char) (ctx : ParseContext) :
    ParseContext × List Char :=
  match findLeftmost volumeSplitAt name0 with
  | some (pos, volText) =>
    let ctx1 :=
      if ctx.episode = none then
        match episode_from_volume_marker volText with
        | some ep =>
          { ctx with episode := some ep,
                     matched_patterns := ctx.matched_patterns ++ ["folder_context:episode"] }
        | none => ctx
      else ctx
    (ctx1, name0.take pos)
  | none => (ctx, name0)

/-- The trailing-episode cut of step 3. -/
def fcTrailingCut (name1 : List Char) (ctx : ParseContext) :
    ParseContext × List Char :=
  match findLeftmost trailingEpAt name1 with
  | some (pos, epn) =>
    let nm := pyStripBy isNameStripChar (name1.take pos)
    let ctx2 :=
      if ctx.episode = none then
        { ctx with episode := some epn,
                   matched_patterns := ctx.matched_patterns ++ ["folder_context:episode"] }
      else ctx
    (ctx2, nm)
  | none => (ctx, name1)

/-- Step 3 of `FolderContextPlugin.parse`: derive a series name from the
folder name (brackets stripped, volume markers and trailing episode
numbers cut off), only when the filename supplied none. -/
def fcNameStep (folder_name : String) (ctx : ParseContext) : ParseContext :=
  if ctx.series_name = none then
    let name0 := stripBracketClean folder_name.data
    let st1 := fcVolumeCut name0 ctx
    let name1 := pyStripBy isNameStripChar (collapseWs st1.2)
    let st2 := fcTrailingCut name1 st1.1
    let name2 := st2.2
    if name2 ≠ [] ∧ name2.length ≥ 2 then
      { st2.1 with series_name := some (String.mk name2),
                   matched_patterns := st2.1.matched_patterns ++ ["folder_context:series_name"] }
    else st2.1
  else ctx

/-- `FolderContextPlugin.parse`. -/
def folderContextParse (ctx : ParseContext) : ParseContext :=
  if folderContextShouldSkip ctx then ctx
  else
    match detect_series_folder (ctx.filepath.getD "") with
    | (none, _) => ctx
    | (some series_folder, season_from_path) =>
      let folder_name := series_folder.name
      let ctx := fcSeasonStep season_from_path ctx
      let ctx := fcTmdbStep folder_name ctx
      let ctx := fcYearStep folder_name ctx
      fcNameStep folder_name ctx

/-! ## `CleanerPlugin` (priority 10) -/

/-- Leading bracket groups with their trailing whitespace, removed
repeatedly (fuel = input length suffices). -/
def dropLeadBracketGroups : Nat → List Char → List Char
  | 0, l => l
  | fuel + 1, l =>
    match bracketGroupLenAt l with
    | some k => dropLeadBracketGroups fuel ((l.drop k).dropWhile isPyWs)
    | none => l

/-- Modelled from the spec: `cleaner.py` is not in the corpus.  §4.1:
"Cleaner (prio 10).  Removes source/release-group bracket groups from
`original_filename` into `cleaned_filename`." — modelled as stripping the
leading `[...]` release-group tags (and the whitespace after them) into
`cleaned_filename`. -/
def cleanerParse (ctx : ParseContext) : ParseContext :=
  { ctx with
    cleaned_filename :=
      String.mk (dropLeadBracketGroups ctx.original_filename.data.length
        ctx.original_filename.data) }

/-! ## `EpisodeStandardPlugin` (parsers/episode_standard.py)

All four patterns are searched on `original_filename` with `re.I`. -/

/-- The separator class `[.\s_-]`. -/
def seClassChar (c : Char) : Bool :=
  c == '.' || isPyWs c || c == '_' || c == '-'

/-- `[Ss](\d{1,2})[.\s_-]?[Ee](\d{1,3})` at the head (season, episode). -/
def sxxExxAt (l : List Char) : Option (Nat × Nat) :=
  match l with
  | s :: rest =>
    if s = 'S' ∨ s = 's' then
      let run := rest.takeWhile isDigit
      tryLengths (min 2 run.length) (fun k =>
        let seasonDigits := rest.take k
        let rest2 := rest.drop k
        let tryE := fun (r : List Char) =>
          match r with
          | e :: r2 =>
            if e = 'E' ∨ e = 'e' then
              let erun := r2.takeWhile isDigit
              if erun.isEmpty then none
              else some (digitsToNat seasonDigits, digitsToNat (erun.take 3))
            else none
          | [] => none
        match rest2 with
        | c :: r2 =>
          if seClassChar c then
            match tryE r2 with
            | some v => some v
            | none => tryE rest2
          else tryE rest2
        | [] => none)
    else none
  | [] => none

/-- Pattern 1, `[.\s_-]?[Ss](\d{1,2})[.\s_-]?[Ee](\d{1,3})`, at the head
(the optional leading separator is greedy). -/
def p1At (l : List Char) : Option (Nat × Nat) :=
  match l with
  | c :: rest =>
    if seClassChar c then
      match sxxExxAt rest with
      | some v => some v
      | none => sxxExxAt l
    else sxxExxAt l
  | [] => none

/-- Pattern 2, `[.\s_-][Ee][Pp]?(\d{1,3})(?:[.\s_-]|$)`, at the head. -/
def p2At (l : List Char) : Option Nat :=
  match l with
  | c :: rest =>
    if seClassChar c then
      match rest with
      | e :: r2 =>
        if e = 'E' ∨ e = 'e' then
          let tryDigits := fun (r : List Char) =>
            let run := r.takeWhile isDigit
            tryLengths (min 3 run.length) (fun k =>
              match r.drop k with
              | [] => some (digitsToNat (r.take k))
              | x :: _ =>
                if seClassChar x then some (digitsToNat (r.take k)) else none)
          match r2 with
          | p :: r3 =>
            if p = 'P' ∨ p = 'p' then
              match tryDigits r3 with
              | some v => some v
              | none => tryDigits r2
            else tryDigits r2
          | [] => none
        else none
      | [] => none
    else none
  | [] => none

/-- Pattern 3, `\[(\d{1,3})\]`, at the head. -/
def p3At : List Char → Option Nat
  | '[' :: rest =>
    let run := rest.takeWhile isDigit
    if ¬run.isEmpty ∧ run.length ≤ 3 then
      match rest.drop run.length with
      | ']' :: _ => some (digitsToNat run)
      | _ => none
    else none
  | _ => none

/-- `\.(?:mp4|mkv|avi)` at the head, case-insensitively. -/
def extAt (l : List Char) : Bool :=
  match l with
  | '.' :: rest =>
    matchLitCI ['m', 'p', '4'] rest || matchLitCI ['m', 'k', 'v'] rest ||
      matchLitCI ['a', 'v', 'i'] rest
  | _ => false

/-- `(?:\[|$|\.(?:mp4|mkv|avi))` at the head. -/
def p4TailOk (l : List Char) : Bool :=
  match l with
  | [] => true
  | '[' :: _ => true
  | _ => extAt l

/-- Pattern 4, `[.\s_-](\d{1,3})[.\s_-]?(?:\[|$|\.(?:mp4|mkv|avi))`, at
the head. -/
def p4At (l : List Char) : Option Nat :=
  match l with
  | c :: rest =>
    if seClassChar c then
      let run := rest.takeWhile isDigit
      tryLengths (min 3 run.length) (fun k =>
        let r2 := rest.drop k
        let withSep :=
          match r2 with
          | x :: r3 => seClassChar x && p4TailOk r3
          | [] => false
        if withSep || p4TailOk r2 then some (digitsToNat (rest.take k)) else none)
    else none
  | [] => none

/-- One pattern step of `EpisodeStandardPlugin.parse`: assign the groups,
then `if ctx.episode:` append the tag and stop.  An episode of `0` is
falsy, so the loop continues (the assignment sticks). -/
def esApply (ctx : ParseContext) (m : Option (Option Nat × Nat)) (tag : String) :
    ParseContext × Bool :=
  match m with
  | none => (ctx, false)
  | some (seasonOpt, e) =>
    let ctx' :=
      match seasonOpt with
      | some s => { ctx with season := some s, episode := some e }
      | none => { ctx with episode := some e }
    if e ≠ 0 then
      ({ ctx' with matched_patterns := ctx'.matched_patterns ++ ["episode_standard:" ++ tag] },
       true)
    else (ctx', false)

/-- `EpisodeStandardPlugin.parse` (skips when an episode is already
set). -/
def episodeStandardParse (ctx : ParseContext) : ParseContext :=
  if ctx.episode ≠ none then ctx
  else
    let fnm := ctx.original_filename.data
    let r1 := esApply ctx
      ((findLeftmost p1At fnm).map (fun pa => (some pa.2.1, pa.2.2)))
      "season_episode"
    if r1.2 then r1.1
    else
      let r2 := esApply r1.1
        ((findLeftmost p2At fnm).map (fun pa => (none, pa.2))) "episode_only"
      if r2.2 then r2.1
      else
        let r3 := esApply r2.1
          ((findLeftmost p3At fnm).map (fun pa => (none, pa.2))) "episode_only"
        if r3.2 then r3.1
        else
          let r4 := esApply r3.1
            ((findLeftmost p4At fnm).map (fun pa => (none, pa.2))) "trailing_number"
          r4.1

/-! ## `EpisodeJapanesePlugin` / `EpisodeChinesePlugin` (priorities 30, 40)

Modelled from the spec: `episode_japanese.py` and `episode_chinese.py`
are not in the corpus.  §4.1: "EpisodeJapanese / EpisodeChinese (prio 30,
40).  Additional patterns: `第N話`, `其のN`, `#N`, kanji-numeral
episodes."  Both are modelled as: skip when an episode is already set,
otherwise search the filename for their patterns (with N an Arabic number
or a kanji numeral) and record the episode. -/

/-- Kanji-numeral value of a short run (`一`..`九` digits around an
optional `十`), enough for episode markers.  Modelled from the spec. -/
def kanjiDigit (c : Char) : Option Nat :=
  if c = '一' then some 1 else if c = '二' then some 2
  else if c = '三' then some 3 else if c = '四' then some 4
  else if c = '五' then some 5 else if c = '六' then some 6
  else if c = '七' then some 7 else if c = '八' then some 8
  else if c = '九' then some 9 else none

/-- Modelled from the spec: kanji numerals up to 99 (`十`, `X十`, `十Y`,
`X十Y`, plain digits `一`..`九`). -/
def kanjiRunToNat (l : List Char) : Option Nat :=
  match l with
  | [c] => if c = '十' then some 10 else kanjiDigit c
  | [a, b] =>
    if b = '十' then (kanjiDigit a).map (fun x => x * 10)
    else if a = '十' then (kanjiDigit b).map (fun y => 10 + y)
    else none
  | [a, b, c] =>
    if b = '十' then
      match kanjiDigit a, kanjiDigit c with
      | some x, some y => some (x * 10 + y)
      | _, _ => none
    else none
  | _ => none

/-- A number written with Arabic digits or kanji numerals at the head.
Modelled from the spec. -/
def numeralAt (l : List Char) : Option Nat :=
  let digits := l.takeWhile isDigit
  if ¬digits.isEmpty then some (digitsToNat digits)
  else
    let krun := l.takeWhile (fun c => isKanjiNumeral c)
    if krun.isEmpty then none else kanjiRunToNat krun

/-- Modelled from the spec: `第N話` at the head. -/
def jpDaiWaAt (l : List Char) : Option Nat :=
  match l with
  | c :: rest =>
    if c = '第' then
      let digits := rest.takeWhile isDigit
      let numLen := if digits.isEmpty then
          (rest.takeWhile (fun x => isKanjiNumeral x)).length else digits.length
      match numeralAt rest with
      | some n =>
        (match rest.drop numLen with
         | x :: _ => if x = '話' then some n else none
         | [] => none)
      | none => none
    else none
  | [] => none

/-- Modelled from the spec: `其[のノ]N` at the head. -/
def jpSonoAt (l : List Char) : Option Nat :=
  match l with
  | a :: b :: rest =>
    if a = '其' ∧ (b = 'の' ∨ b = 'ノ') then numeralAt rest else none
  | _ => none

/-- Modelled from the spec: `[＃#♯]N` at the head. -/
def jpHashAt (l : List Char) : Option Nat :=
  match l with
  | c :: rest =>
    if c = '＃' ∨ c = '#' ∨ c = '♯' then
      let digits := rest.takeWhile isDigit
      if digits.isEmpty then none else some (digitsToNat digits)
    else none
  | [] => none

/-- Modelled from the spec: `EpisodeJapanesePlugin.parse`. -/
def episodeJapaneseParse (ctx : ParseContext) : ParseContext :=
  if ctx.episode ≠ none then ctx
  else
    let fnm := ctx.original_filename.data
    let hit :=
      match findLeftmost jpDaiWaAt fnm with
      | some (_, n) => some n
      | none =>
        match findLeftmost jpSonoAt fnm with
        | some (_, n) => some n
        | none => (findLeftmost jpHashAt fnm).map (fun pa => pa.2)
    match hit with
    | some n =>
      { ctx with episode := some n,
                 matched_patterns := ctx.matched_patterns ++ ["episode_japanese:episode"] }
    | none => ctx

/-- Modelled from the spec: `第N集`/`第N话` at the head
(`EpisodeChinesePlugin`). -/
def zhDaiAt (l : List Char) : Option Nat :=
  match l with
  | c :: rest =>
    if c = '第' then
      let digits := rest.takeWhile isDigit
      let numLen := if digits.isEmpty then
          (rest.takeWhile (fun x => isKanjiNumeral x)).length else digits.length
      match numeralAt rest with
      | some n =>
        (match rest.drop numLen with
         | x :: _ => if x = '集' ∨ x = '话' then some n else none
         | [] => none)
      | none => none
    else none
  | [] => none

/-- Modelled from the spec: `EpisodeChinesePlugin.parse`. -/
def episodeChineseParse (ctx : ParseContext) : ParseContext :=
  if ctx.episode ≠ none then ctx
  else
    match findLeftmost zhDaiAt ctx.original_filename.data with
    | some (_, n) =>
      { ctx with episode := some n,
                 matched_patterns := ctx.matched_patterns ++ ["episode_chinese:episode"] }
    | none => ctx

/-! ## `SeriesNamePlugin` (parsers/series_name.py)

The `EPISODE_MARKERS` are searched on the cleaned filename *without*
`re.I` (the patterns carry explicit character classes); only the earliest
match position is used.  `KANJI_CHARS` is imported from the missing
`episode_japanese.py` and is modelled (from the spec's volume-marker
lists) as the numerals `一二三四五六七八九十百千`. -/

/-- `[Ss]\d{1,2}(?=[.\s_-]|$)` at the head. -/
def mSAloneAt (l : List Char) : Bool :=
  match l with
  | s :: rest =>
    decide (s = 'S' ∨ s = 's') &&
      (let run := rest.takeWhile isDigit
       !run.isEmpty && decide (run.length ≤ 2) &&
         (match rest.drop run.length with
          | [] => true
          | c :: _ => seClassChar c))
  | [] => false

/-- `[Ee][Pp]?\d{1,3}` at the head. -/
def mEpAt (l : List Char) : Bool :=
  match l with
  | e :: rest =>
    decide (e = 'E' ∨ e = 'e') &&
      (match rest with
       | p :: r2 =>
         if p = 'P' ∨ p = 'p' then
           (match r2 with
            | d :: _ => isDigit d
            | [] => false) || isDigit p
         else isDigit p
       | [] => false)
  | [] => false

/-- The episode-counter class `[季集话回章弾話幕]`. -/
def isZhCounter (c : Char) : Bool :=
  c == '季' || c == '集' || c == '话' || c == '回' || c == '章' ||
  c == '弾' || c == '話' || c == '幕'

/-- `第\d+[季集话回章弾話幕]` at the head. -/
def mDaiDigitsAt (l : List Char) : Bool :=
  match l with
  | c :: rest =>
    c = '第' &&
      (let run := rest.takeWhile isDigit
       !run.isEmpty &&
         (match rest.drop run.length with
          | x :: _ => isZhCounter x
          | [] => false))
  | [] => false

/-- The class `[一二三四五六七八九十百]` (without `千`). -/
def isKanjiNumNoSen (c : Char) : Bool :=
  c == '一' || c == '二' || c == '三' || c == '四' || c == '五' ||
  c == '六' || c == '七' || c == '八' || c == '九' || c == '十' || c == '百'

/-- `第[一二三四五六七八九十百]+[季集话回章弾話幕]` at the head. -/
def mDaiKanjiAt (l : List Char) : Bool :=
  match l with
  | c :: rest =>
    c = '第' &&
      (let run := rest.takeWhile isKanjiNumNoSen
       !run.isEmpty &&
         (match rest.drop run.length with
          | x :: _ => isZhCounter x
          | [] => false))
  | [] => false

/-- `前編|後編|前篇|後篇|上巻|下巻|中編|中篇` at the head. -/
def mHalfVolumeAt (l : List Char) : Bool :=
  match l with
  | a :: b :: _ =>
    (decide (a = '前' ∨ a = '後' ∨ a = '中') && decide (b = '編' ∨ b = '篇')) ||
      (decide (a = '上' ∨ a = '下') && decide (b = '巻'))
  | _ => false

/-- `上集|下集|中集` at the head. -/
def mHalfJiAt (l : List Char) : Bool :=
  match l with
  | a :: b :: _ => decide (a = '上' ∨ a = '下' ∨ a = '中') && decide (b = '集')
  | _ => false

/-- `其[のノ之乃][KANJI_CHARS\d]+` at the head. -/
def mSonoAt (l : List Char) : Bool :=
  match l with
  | a :: b :: c :: _ =>
    decide (a = '其') && decide (b = 'の' ∨ b = 'ノ' ∨ b = '之' ∨ b = '乃') &&
      (isKanjiNumeral c || isDigit c)
  | _ => false

/-- `[＃#♯]\d+` at the head. -/
def mHashAt (l : List Char) : Bool :=
  match l with
  | c :: d :: _ => decide (c = '＃' ∨ c = '#' ∨ c = '♯') && isDigit d
  | _ => false

/-- `巻\s*\d+` at the head. -/
def mMakiAt (l : List Char) : Bool :=
  match l with
  | c :: rest =>
    c = '巻' &&
      (match (rest.dropWhile isPyWs).head? with
       | some d => isDigit d
       | none => false)
  | [] => false

/-- `WORD\.?\s*\d+` at the head for a case-sensitive literal word
(`Episode\s*\d+` uses no dot, `Act\.?\s*\d+` allows one). -/
def mWordNumAt (word : List Char) (allowDot : Bool) (l : List Char) : Bool :=
  word.isPrefixOf l &&
    (let rest := l.drop word.length
     let rest := if allowDot ∧ rest.head? = some '.' then rest.drop 1 else rest
     match (rest.dropWhile isPyWs).head? with
     | some d => isDigit d
     | none => false)

/-- `\(\d{1,2}\)\s*$` at the head. -/
def mParenNumEndAt (l : List Char) : Bool :=
  match l with
  | '(' :: rest =>
    let run := rest.takeWhile isDigit
    !run.isEmpty && decide (run.length ≤ 2) &&
      (match rest.drop run.length with
       | ')' :: tail => decide (tail.dropWhile isPyWs = [])
       | _ => false)
  | _ => false

/-- `O[^O]+O` for a paired delimiter `O` (`～…～`, `「…」`, …) at the
head. -/
def mPairedAt (openC closeC : Char) (l : List Char) : Bool :=
  match l with
  | c :: rest =>
    c = openC &&
      (let inner := rest.takeWhile (fun x => x ≠ closeC)
       !inner.isEmpty &&
         (match rest.drop inner.length with
          | x :: _ => x = closeC
          | [] => false))
  | [] => false

/-- Case-sensitive literal at the head. -/
def mLitAt (word : List Char) (l : List Char) : Bool :=
  word.isPrefixOf l

/-- The `EPISODE_MARKERS` head matchers, in source order. -/
def markerHeadMatchers : List (List Char → Bool) :=
  [ fun l => (sxxExxAt l).isSome
  , mSAloneAt
  , mEpAt
  , mDaiDigitsAt
  , mDaiKanjiAt
  , mHalfVolumeAt
  , mHalfJiAt
  , mSonoAt
  , mHashAt
  , fun l => (matchVolDotNum l).isSome
  , mMakiAt
  , mWordNumAt ['E', 'p', 'i', 's', 'o', 'd', 'e'] false
  , mWordNumAt ['A', 'c', 't'] true
  , fun l => (p3At l).isSome
  , mParenNumEndAt
  , mPairedAt '～' '～'
  , mPairedAt '〜' '〜'
  , mPairedAt '「' '」'
  , mPairedAt '『' '』'
  , mLitAt ['O', 'V', 'A'], mLitAt ['O', 'A', 'D'], mLitAt ['O', 'N', 'A']
  , mLitAt ['S', 'P']
  , mLitAt ['特', '別', '編'], mLitAt ['特', '別', '篇']
  , mLitAt ['番', '外', '編'], mLitAt ['番', '外', '篇']
  , mLitAt ['劇', '場', '版'], mLitAt ['剧', '场', '版']
  , mLitAt ['総', '集', '編'], mLitAt ['总', '集', '编'] ]

/-- The earliest `match.start()` over all episode markers
(`len(text)` when none matches). -/
def earliestMarkerPos (text : List Char) : Nat :=
  markerHeadMatchers.foldl
    (fun acc m =>
      match findLeftmost (fun t => if m t then some () else none) text with
      | some (pos, _) => if pos < acc then pos else acc
      | none => acc)
    text.length

/-- `YEAR_PATTERN` = `[.\s_\(\[]?((?:19|20)\d{2})[.\s_\)\]]?` at the head
(the optional framing characters shift the match start but not the
captured year). -/
def yearPatAt (l : List Char) : Option Nat :=
  match l with
  | c :: rest =>
    if c = '.' ∨ isPyWs c = true ∨ c = '_' ∨ c = '(' ∨ c = '[' then
      match yearCoreAt rest with
      | some y => some y
      | none => yearCoreAt l
    else yearCoreAt l
  | [] => none

/-- `^WORD\s+` removed, case-insensitively (one `REMOVE_PREFIXES`
entry). -/
def stripWordWsPre (word : List Char) (n : List Char) : List Char :=
  if matchLitCI word n then
    let rest := n.drop word.length
    let ws := rest.takeWhile isPyWs
    if ws.isEmpty then n else rest.drop ws.length
  else n

/-- `^\[WORD\]\s*` removed, case-insensitively. -/
def stripBracketWordPre (word : List Char) (n : List Char) : List Char :=
  match n with
  | '[' :: rest =>
    if matchLitCI word rest ∧ (rest.drop word.length).head? = some ']' then
      (rest.drop (word.length + 1)).dropWhile isPyWs
    else n
  | _ => n

/-- `\s*THE\s+ANIMATION\s*$` at the head (case-insensitive; also covers
the explicit lowercase variant of `REMOVE_SUFFIXES`). -/
def theAnimTailAt (l : List Char) : Bool :=
  let r := l.dropWhile isPyWs
  matchLitCI ['T', 'H', 'E'] r &&
    (let r2 := r.drop 3
     let ws := r2.takeWhile isPyWs
     !ws.isEmpty &&
       (let r3 := r2.drop ws.length
        matchLitCI ['A', 'N', 'I', 'M', 'A', 'T', 'I', 'O', 'N'] r3 &&
          decide ((r3.drop 9).dropWhile isPyWs = [])))

/-- `\s*-\s*The\s+Animation\s*$` at the head (case-insensitive). -/
def dashAnimTailAt (l : List Char) : Bool :=
  let r := l.dropWhile isPyWs
  match r with
  | '-' :: r1 =>
    let r2 := r1.dropWhile isPyWs
    matchLitCI ['T', 'h', 'e'] r2 &&
      (let r3 := r2.drop 3
       let ws := r3.takeWhile isPyWs
       !ws.isEmpty &&
         (let r4 := r3.drop ws.length
          matchLitCI ['A', 'n', 'i', 'm', 'a', 't', 'i', 'o', 'n'] r4 &&
            decide ((r4.drop 9).dropWhile isPyWs = [])))
  | _ => false

/-- `\s*ANIMATION\s*$` at the head (case-insensitive). -/
def animTailAt (l : List Char) : Bool :=
  let r := l.dropWhile isPyWs
  matchLitCI ['A', 'N', 'I', 'M', 'A', 'T', 'I', 'O', 'N'] r &&
    decide ((r.drop 9).dropWhile isPyWs = [])

/-- Remove a `$`-anchored suffix pattern: truncate at the leftmost
position from which the matcher reaches the end. -/
def truncAtTail (m : List Char → Bool) (n : List Char) : List Char :=
  match findLeftmost (fun t => if m t then some () else none) n with
  | some (pos, _) => n.take pos
  | none => n

/-- `\s*\[[^\]]*\]$` at the head. -/
def tailBracketAt (l : List Char) : Bool :=
  let r := l.dropWhile isPyWs
  match bracketGroupLenAt r with
  | some k => decide (r.drop k = [])
  | none => false

/-- `SeriesNamePlugin._clean_name`. -/
def clean_name (name : List Char) : List Char :=
  let n := pyStripBy isNameStripChar (collapseWs name)
  let n := stripWordWsPre ['O', 'V', 'A'] n
  let n := stripWordWsPre ['O', 'A', 'D'] n
  let n := stripWordWsPre ['O', 'N', 'A'] n
  let n := stripBracketWordPre ['O', 'V', 'A'] n
  let n := stripBracketWordPre ['O', 'A', 'D'] n
  let n := truncAtTail theAnimTailAt n
  let n := truncAtTail theAnimTailAt n
  let n := truncAtTail dashAnimTailAt n
  let n := truncAtTail animTailAt n
  let n := pyStripBy isNameStripChar n
  let n :=
    match bracketGroupLenAt n with
    | some k => (n.drop k).dropWhile isPyWs
    | none => n
  let n := truncAtTail tailBracketAt n
  pyStripBy isPyWs n

/-- `SeriesNamePlugin._extract_from_cleaned`: cut at the earliest episode
marker or year (note the source quirk: a marker at position 0 keeps the
whole text), then clean; names shorter than 2 are discarded. -/
def extract_from_cleaned (cleaned : String) : Option String :=
  let text := cleaned.data
  let e1 := earliestMarkerPos text
  let e2 :=
    match findLeftmost (fun t => (yearPatAt t).map (fun _ => ())) text with
    | some (pos, _) => if pos < e1 then pos else e1
    | none => e1
  let name := if e2 > 0 then text.take e2 else text
  let name := clean_name name
  if name ≠ [] ∧ name.length ≥ 2 then some (String.mk name) else none

/-- `SeriesNamePlugin._extract_year`: the first `(?:19|20)\d{2}` match,
kept only when it lies in `[1950, 2030]`. -/
def extract_year (filename : String) : Option Nat :=
  match findLeftmost yearPatAt filename.data with
  | some (_, y) => if 1950 ≤ y ∧ y ≤ 2030 then some y else none
  | none => none

/-- `SeriesNamePlugin._calculate_confidence`: +0.4 for a (truthy) series
name (+0.05 when it has ≥ 4 characters), +0.2 for a season, +0.3 for an
episode, +0.1 for a year, clamped at 1. -/
def calculate_confidence (ctx : ParseContext) : Rat :=
  let score : Rat :=
    (match ctx.series_name with
     | some s => if s ≠ "" then 0.4 + (if s.data.length ≥ 4 then 0.05 else 0) else 0
     | none => 0) +
    (if ctx.season.isSome then 0.2 else 0) +
    (if ctx.episode.isSome then 0.3 else 0) +
    (if ctx.year.isSome then 0.1 else 0)
  min score 1

/-- The name-extraction step of `SeriesNamePlugin.parse` (skipped when
the folder context already supplied the name). -/
def snNameStep (ctx : ParseContext) : ParseContext :=
  if "folder_context:series_name" ∉ ctx.matched_patterns then
    match extract_from_cleaned ctx.cleaned_filename with
    | some name =>
      { ctx with series_name := some name,
                 matched_patterns := ctx.matched_patterns ++ ["series_name:extracted"] }
    | none => ctx
  else ctx

/-- The year step of `SeriesNamePlugin.parse`: an in-range year found in
the original filename *unconditionally overwrites* `ctx.year`. -/
def snYearStep (ctx : ParseContext) : ParseContext :=
  match extract_year ctx.original_filename with
  | some y => { ctx with year := some y }
  | none => ctx

/-- `SeriesNamePlugin.parse`: extract the name from the cleaned filename
unless the folder context supplied one, then unconditionally refresh the
year from the filename, then score. -/
def seriesNameParse (ctx : ParseContext) : ParseContext :=
  let c := snYearStep (snNameStep ctx)
  { c with confidence := calculate_confidence c }

/-! ## `ParserService.parse` (parser_service.py)

The default plugin chain, in ascending priority: FolderContext (5),
Cleaner (10), EpisodeStandard (20), EpisodeJapanese (30), EpisodeChinese
(40), SeriesName (50).  Each plugin runs unless its `should_skip`
accepts (FolderContext skips without a filepath; the episode plugins skip
once an episode is known; Cleaner and SeriesName never skip). -/

/-- The seed context built by `ParserService.parse` (with the
`__post_init__` copy of the filename into `cleaned_filename`). -/
def initialCtx (filename : String) (filepath : Option String) : ParseContext :=
  { original_filename := filename, filepath := filepath,
    cleaned_filename := filename }

/-- The pipeline after the `FolderContextPlugin` stage. -/
def afterFolder (filename : String) (filepath : Option String) : ParseContext :=
  let ctx := initialCtx filename filepath
  if folderContextShouldSkip ctx then ctx else folderContextParse ctx

/-- The plugin chain before `SeriesNamePlugin`. -/
def preSeriesName (filename : String) (filepath : Option String) :
    ParseContext :=
  let ctx := cleanerParse (afterFolder filename filepath)
  let ctx := if ctx.episode ≠ none then ctx else episodeStandardParse ctx
  let ctx := if ctx.episode ≠ none then ctx else episodeJapaneseParse ctx
  if ctx.episode ≠ none then ctx else episodeChineseParse ctx

/-- The full plugin chain. -/
def parsePipeline (filename : String) (filepath : Option String) :
    ParseContext :=
  seriesNameParse (preSeriesName filename filepath)

def parse (filename : String) (filepath : Option String) : ParsedInfo :=
  let ctx := parsePipeline filename filepath
  { original_filename := filename
    series_name := ctx.series_name
    season := ctx.season
    episode := ctx.episode
    year := ctx.year
    tmdb_id := ctx.tmdb_id
    is_parsed := ctx.episode.isSome || ctx.series_name.isSome
    confidence := ctx.confidence }

/-! ### Projection and frame lemmas for the parser pipeline -/

theorem parse_confidence (f : String) (fp : Option String) :
    (parse f fp).confidence
      = calculate_confidence (snYearStep (snNameStep (preSeriesName f fp))) := rfl

theorem parse_year (f : String) (fp : Option String) :
    (parse f fp).year = (snYearStep (snNameStep (preSeriesName f fp))).year := rfl

theorem parse_tmdb (f : String) (fp : Option String) :
    (parse f fp).tmdb_id
      = (snYearStep (snNameStep (preSeriesName f fp))).tmdb_id := rfl

theorem parse_is_parsed (f : String) (fp : Option String) :
    (parse f fp).is_parsed
      = ((parsePipeline f fp).episode.isSome
          || (parsePipeline f fp).series_name.isSome) := rfl

theorem parse_episode (f : String) (fp : Option String) :
    (parse f fp).episode = (parsePipeline f fp).episode := rfl

theorem parse_series_name (f : String) (fp : Option String) :
    (parse f fp).series_name = (parsePipeline f fp).series_name := rfl

theorem snNameStep_frame (ctx : ParseContext) :
    (snNameStep ctx).original_filename = ctx.original_filename ∧
    (snNameStep ctx).year = ctx.year ∧
    (snNameStep ctx).tmdb_id = ctx.tmdb_id ∧
    (snNameStep ctx).episode = ctx.episode ∧
    (snNameStep ctx).season = ctx.season := by
  unfold snNameStep
  split
  · split <;> simp
  · simp

theorem snYearStep_frame (ctx : ParseContext) :
    (snYearStep ctx).original_filename = ctx.original_filename ∧
    (snYearStep ctx).tmdb_id = ctx.tmdb_id ∧
    (snYearStep ctx).episode = ctx.episode ∧
    (snYearStep ctx).season = ctx.season := by
  unfold snYearStep
  split <;> simp

theorem snYearStep_year_of_extract (ctx : ParseContext) (y : Nat)
    (h : extract_year ctx.original_filename = some y) :
    (snYearStep ctx).year = some y := by
  unfold snYearStep
  rw [h]

theorem cleanerParse_frame (ctx : ParseContext) :
    (cleanerParse ctx).original_filename = ctx.original_filename ∧
    (cleanerParse ctx).year = ctx.year ∧
    (cleanerParse ctx).tmdb_id = ctx.tmdb_id ∧
    (cleanerParse ctx).episode = ctx.episode ∧
    (cleanerParse ctx).season = ctx.season ∧
    (cleanerParse ctx).series_name = ctx.series_name ∧
    (cleanerParse ctx).matched_patterns = ctx.matched_patterns := by
  unfold cleanerParse
  simp

/-- The fields no episode plugin touches, related between an output and
an input context. -/
def CtxFrame (a b : ParseContext) : Prop :=
  a.original_filename = b.original_filename ∧
  a.cleaned_filename = b.cleaned_filename ∧
  a.year = b.year ∧ a.tmdb_id = b.tmdb_id ∧ a.series_name = b.series_name

theorem CtxFrame.same (a : ParseContext) : CtxFrame a a :=
  ⟨rfl, rfl, rfl, rfl, rfl⟩

theorem CtxFrame.trans {a b c : ParseContext} (h1 : CtxFrame a b)
    (h2 : CtxFrame b c) : CtxFrame a c :=
  ⟨h1.1.trans h2.1, h1.2.1.trans h2.2.1, h1.2.2.1.trans h2.2.2.1,
   h1.2.2.2.1.trans h2.2.2.2.1, h1.2.2.2.2.trans h2.2.2.2.2⟩

theorem esApply_frame (ctx : ParseContext) (m : Option (Option Nat × Nat))
    (tag : String) : CtxFrame (esApply ctx m tag).1 ctx := by
  unfold CtxFrame esApply
  rcases m with _ | ⟨so, e⟩
  · simp
  · rcases so with _ | s <;> dsimp only <;> split <;> simp

theorem episodeStandardParse_frame (ctx : ParseContext) :
    CtxFrame (episodeStandardParse ctx) ctx := by
  unfold episodeStandardParse
  split
  · exact CtxFrame.same ctx
  · dsimp only
    split
    · exact esApply_frame _ _ _
    · split
      · exact (esApply_frame _ _ _).trans (esApply_frame _ _ _)
      · split
        · exact ((esApply_frame _ _ _).trans (esApply_frame _ _ _)).trans
            (esApply_frame _ _ _)
        · exact (((esApply_frame _ _ _).trans (esApply_frame _ _ _)).trans
            (esApply_frame _ _ _)).trans (esApply_frame _ _ _)

theorem episodeJapaneseParse_frame (ctx : ParseContext) :
    CtxFrame (episodeJapaneseParse ctx) ctx := by
  unfold episodeJapaneseParse
  split
  · exact CtxFrame.same ctx
  · dsimp only
    split
    · unfold CtxFrame; simp
    · exact CtxFrame.same ctx

theorem episodeChineseParse_frame (ctx : ParseContext) :
    CtxFrame (episodeChineseParse ctx) ctx := by
  unfold episodeChineseParse
  split
  · exact CtxFrame.same ctx
  · split
    · unfold CtxFrame; simp
    · exact CtxFrame.same ctx

theorem fcSeasonStep_frame (s : Option Nat) (ctx : ParseContext) :
    (fcSeasonStep s ctx).original_filename = ctx.original_filename ∧
    (fcSeasonStep s ctx).year = ctx.year ∧
    (fcSeasonStep s ctx).tmdb_id = ctx.tmdb_id ∧
    (fcSeasonStep s ctx).series_name = ctx.series_name ∧
    (fcSeasonStep s ctx).episode = ctx.episode := by
  unfold fcSeasonStep
  rcases s with _ | sn
  · simp
  · dsimp only; split <;> simp

theorem fcTmdbStep_frame (fn : String) (ctx : ParseContext) :
    (fcTmdbStep fn ctx).original_filename = ctx.original_filename ∧
    (fcTmdbStep fn ctx).year = ctx.year ∧
    (fcTmdbStep fn ctx).series_name = ctx.series_name ∧
    (fcTmdbStep fn ctx).episode = ctx.episode ∧
    (fcTmdbStep fn ctx).season = ctx.season := by
  unfold fcTmdbStep
  split
  · split <;> simp
  · simp

theorem fcTmdbStep_sets (fn : String) (ctx : ParseContext) (n : Nat)
    (h : tmdbIdSearch fn.data = some n) (h0 : ctx.tmdb_id = none) :
    (fcTmdbStep fn ctx).tmdb_id = some n := by
  unfold fcTmdbStep
  rw [h]
  simp [h0]

theorem fcYearStep_frame (fn : String) (ctx : ParseContext) :
    (fcYearStep fn ctx).original_filename = ctx.original_filename ∧
    (fcYearStep fn ctx).tmdb_id = ctx.tmdb_id ∧
    (fcYearStep fn ctx).series_name = ctx.series_name ∧
    (fcYearStep fn ctx).episode = ctx.episode ∧
    (fcYearStep fn ctx).season = ctx.season := by
  unfold fcYearStep
  split
  · split
    · split <;> simp
    · simp
  · simp

theorem fcVolumeCut_frame (name0 : List Char) (ctx : ParseContext) :
    ((fcVolumeCut name0 ctx).1).original_filename = ctx.original_filename ∧
    ((fcVolumeCut name0 ctx).1).year = ctx.year ∧
    ((fcVolumeCut name0 ctx).1).tmdb_id = ctx.tmdb_id ∧
    ((fcVolumeCut name0 ctx).1).series_name = ctx.series_name ∧
    ((fcVolumeCut name0 ctx).1).season = ctx.season := by
  unfold fcVolumeCut
  split
  · dsimp only
    split
    · split <;> simp
    · simp
  · simp

theorem fcTrailingCut_frame (name1 : List Char) (ctx : ParseContext) :
    ((fcTrailingCut name1 ctx).1).original_filename = ctx.original_filename ∧
    ((fcTrailingCut name1 ctx).1).year = ctx.year ∧
    ((fcTrailingCut name1 ctx).1).tmdb_id = ctx.tmdb_id ∧
    ((fcTrailingCut name1 ctx).1).series_name = ctx.series_name ∧
    ((fcTrailingCut name1 ctx).1).season = ctx.season := by
  unfold fcTrailingCut
  split
  · dsimp only
    split <;> simp
  · simp

theorem fcNameStep_frame (fn : String) (ctx : ParseContext) :
    (fcNameStep fn ctx).original_filename = ctx.original_filename ∧
    (fcNameStep fn ctx).year = ctx.year ∧
    (fcNameStep fn ctx).tmdb_id = ctx.tmdb_id ∧
    (fcNameStep fn ctx).season = ctx.season := by
  unfold fcNameStep
  split
  · dsimp only
    have h1 := fcVolumeCut_frame (stripBracketClean fn.data) ctx
    have h2 := fcTrailingCut_frame
      (pyStripBy isNameStripChar (collapseWs (fcVolumeCut (stripBracketClean fn.data) ctx).2))
      (fcVolumeCut (stripBracketClean fn.data) ctx).1
    split
    · refine ⟨?_, ?_, ?_, ?_⟩ <;> simp only []
      · exact (h2.1.trans h1.1)
      · exact (h2.2.1.trans h1.2.1)
      · exact (h2.2.2.1.trans h1.2.2.1)
      · exact (h2.2.2.2.2.trans h1.2.2.2.2)
    · exact ⟨h2.1.trans h1.1, h2.2.1.trans h1.2.1, h2.2.2.1.trans h1.2.2.1,
        h2.2.2.2.2.trans h1.2.2.2.2⟩
  · exact ⟨rfl, rfl, rfl, rfl⟩

theorem folderContextParse_tmdb (ctx : ParseContext) (folder : PyPath)
    (sOpt : Option Nat) (n : Nat)
    (hskip : folderContextShouldSkip ctx = false)
    (hdet : detect_series_folder (ctx.filepath.getD "") = (some folder, sOpt))
    (hsearch : tmdbIdSearch folder.name.data = some n)
    (h0 : ctx.tmdb_id = none) :
    (folderContextParse ctx).tmdb_id = some n := by
  unfold folderContextParse
  rw [if_neg (by simp [hskip]), hdet]
  dsimp only
  have hA := (fcSeasonStep_frame sOpt ctx).2.2.1
  have h0' : (fcSeasonStep sOpt ctx).tmdb_id = none := hA.trans h0
  have hB := fcTmdbStep_sets folder.name (fcSeasonStep sOpt ctx) n hsearch h0'
  have hC := (fcYearStep_frame folder.name
    (fcTmdbStep folder.name (fcSeasonStep sOpt ctx))).2.1
  have hD := (fcNameStep_frame folder.name
    (fcYearStep folder.name (fcTmdbStep folder.name (fcSeasonStep sOpt ctx)))).2.2.1
  rw [hD, hC, hB]

theorem folderContextParse_original (ctx : ParseContext) :
    (folderContextParse ctx).original_filename = ctx.original_filename := by
  unfold folderContextParse
  split
  · rfl
  · split
    · rfl
    · dsimp only
      rw [(fcNameStep_frame _ _).1, (fcYearStep_frame _ _).1,
        (fcTmdbStep_frame _ _).1, (fcSeasonStep_frame _ _).1]

theorem afterFolder_original (f : String) (fp : Option String) :
    (afterFolder f fp).original_filename = f := by
  unfold afterFolder
  dsimp only
  split
  · rfl
  · exact folderContextParse_original (initialCtx f fp)

theorem preSeriesName_core (f : String) (fp : Option String) :
    (preSeriesName f fp).original_filename
        = (afterFolder f fp).original_filename ∧
    (preSeriesName f fp).year = (afterFolder f fp).year ∧
    (preSeriesName f fp).tmdb_id = (afterFolder f fp).tmdb_id ∧
    (preSeriesName f fp).series_name = (afterFolder f fp).series_name := by
  have hclean := cleanerParse_frame (afterFolder f fp)
  unfold preSeriesName
  set c1 := cleanerParse (afterFolder f fp) with hc1
  set c2 := if c1.episode ≠ none then c1 else episodeStandardParse c1 with hc2
  set c3 := if c2.episode ≠ none then c2 else episodeJapaneseParse c2 with hc3
  have h1 : CtxFrame c2 c1 := by
    rw [hc2]
    split
    · exact CtxFrame.same c1
    · exact episodeStandardParse_frame c1
  have h2 : CtxFrame c3 c2 := by
    rw [hc3]
    split
    · exact CtxFrame.same c2
    · exact episodeJapaneseParse_frame c2
  have h3 : CtxFrame (if c3.episode ≠ none then c3 else episodeChineseParse c3) c3 := by
    split
    · exact CtxFrame.same c3
    · exact episodeChineseParse_frame c3
  have hcomp : CtxFrame (if c3.episode ≠ none then c3 else episodeChineseParse c3) c1 :=
    (h3.trans h2).trans h1
  exact ⟨hcomp.1.trans hclean.1, hcomp.2.2.1.trans hclean.2.1,
    hcomp.2.2.2.1.trans hclean.2.2.1, hcomp.2.2.2.2.trans hclean.2.2.2.2.2.1⟩

theorem calculate_confidence_bounds (ctx : ParseContext) :
    0 ≤ calculate_confidence ctx ∧ calculate_confidence ctx ≤ 1 := by
  unfold calculate_confidence
  rcases ctx.series_name with _ | s <;> dsimp only <;> split_ifs <;>
    refine ⟨le_min ?_ (by norm_num), min_le_right _ _⟩ <;> norm_num

/-! ### Claim C7 -/

/-- **C7.** The parser is a total function (the embedding is a plain
function, so termination and absence of exceptions hold by construction):
for every filename and optional filepath the confidence of the result
lies in `[0, 1]`, and a completely unparsed file (no series name, no
episode) comes back with `is_parsed = false` rather than an error. -/
theorem parse_total_confidence_in_unit_interval (f : String)
    (fp : Option String) :
    0 ≤ (parse f fp).confidence ∧ (parse f fp).confidence ≤ 1 ∧
    ((parse f fp).series_name = none ∧ (parse f fp).episode = none →
      (parse f fp).is_parsed = false) := by
  refine ⟨?_, ?_, ?_⟩
  · rw [parse_confidence]
    exact (calculate_confidence_bounds _).1
  · rw [parse_confidence]
    exact (calculate_confidence_bounds _).2
  · rintro ⟨hs, he⟩
    rw [parse_series_name] at hs
    rw [parse_episode] at he
    rw [parse_is_parsed, hs, he]
    rfl

/-- **C7, witness.** The bound and the unparsed case at the concrete
filename `"x"` (too short to yield a series name, no episode marker). -/
theorem parse_total_confidence_witness :
    0 ≤ (parse "x" none).confidence ∧ (parse "x" none).confidence ≤ 1 ∧
    (parse "x" none).is_parsed = false := by
  have h := parse_total_confidence_in_unit_interval "x" none
  exact ⟨h.1, h.2.1, h.2.2 (by decide)⟩

/-! ### Claim C6 -/

/-- **C6, counterexample.** The claim fails as stated: for the file
`/Show [tmdbid-123]/ep1.mp4` the parent folder name contains
`[tmdbid-123]` (the tag regex finds id 123 in it), yet `parse` returns no
`tmdb_id` — `_detect_series_folder` discards a series folder that sits
directly under the filesystem root. -/
theorem folder_tmdbid_not_extracted_at_root :
    tmdbIdSearch (pathParse "/Show [tmdbid-123]/ep1.mp4").parent.name.data
        = some 123 ∧
    (parse "ep1.mp4" (some "/Show [tmdbid-123]/ep1.mp4")).tmdb_id = none := by
  constructor
  · decide
  · decide

/-- **C6 (amended).** If the filepath's folder structure yields a series
folder (in particular, the folder does not sit directly under the
filesystem root) and the folder name carries a `[tmdbid-NNN]` tag (as
found by the tag regex), then the parse result's `tmdb_id` is NNN. -/
theorem folder_tmdbid_sets_mdb_id (f fp : String) (folder : PyPath)
    (sOpt : Option Nat) (n : Nat)
    (hdet : detect_series_folder fp = (some folder, sOpt))
    (hsearch : tmdbIdSearch folder.name.data = some n) :
    (parse f (some fp)).tmdb_id = some n := by
  rw [parse_tmdb, (snYearStep_frame _).2.1, (snNameStep_frame _).2.2.1,
    (preSeriesName_core f (some fp)).2.2.1]
  unfold afterFolder
  dsimp only
  by_cases hfp : fp = ""
  · exfalso
    subst hfp
    have hz : detect_series_folder "" = (none, none) := by decide
    rw [hz] at hdet
    simp at hdet
  · have hskip : folderContextShouldSkip (initialCtx f (some fp)) = false := by
      unfold folderContextShouldSkip initialCtx
      simp [hfp]
    rw [if_neg (by simp [hskip])]
    exact folderContextParse_tmdb (initialCtx f (some fp)) folder sOpt n hskip
      (by simpa using hdet) hsearch rfl

/-- **C6 (amended), witness.** A two-deep library path: the tag in
`Show [tmdbid-123]` is extracted. -/
theorem folder_tmdbid_sets_mdb_id_witness :
    (parse "ep1.mp4" (some "/media/lib/Show [tmdbid-123]/ep1.mp4")).tmdb_id
      = some 123 := by
  exact folder_tmdbid_sets_mdb_id "ep1.mp4" "/media/lib/Show [tmdbid-123]/ep1.mp4"
    (pathParse "/media/lib/Show [tmdbid-123]/ep1.mp4").parent none 123
    (by decide) (by decide)

/-! ### Claim C9 -/

/-- **C9.** When the parent folder supplies an in-range year and the
filename also contains an in-range year (as found by the year regex),
the final `ParsedInfo.year` is the filename's year: `SeriesNamePlugin`
unconditionally overwrites the year that `FolderContextPlugin` set. -/
theorem filename_year_overrides_folder_year (f fp : String)
    (folder : PyPath) (sOpt : Option Nat) (fy y : Nat)
    (hdet : detect_series_folder fp = (some folder, sOpt))
    (hfy : folderYearSearch folder.name.data = some fy)
    (hfyr : 1950 ≤ fy ∧ fy ≤ 2030)
    (hy : extract_year f = some y) :
    (parse f (some fp)).year = some y := by
  rw [parse_year]
  apply snYearStep_year_of_extract
  rw [(snNameStep_frame _).1, (preSeriesName_core f (some fp)).1,
    afterFolder_original]
  exact hy

/-- **C9, witness.** Folder `Show (2020)`, filename year `2005`: the
result carries 2005. -/
theorem filename_year_overrides_folder_year_witness :
    (parse "Show 2005.mkv" (some "/lib/x/Show (2020)/Show 2005.mkv")).year
      = some 2005 := by
  exact filename_year_overrides_folder_year "Show 2005.mkv"
    "/lib/x/Show (2020)/Show 2005.mkv"
    (pathParse "/lib/x/Show (2020)/Show 2005.mkv").parent none 2020 2005
    (by decide) (by decide) (by decide) (by decide)

/-! ## Orchestrator data model

`models/scraper.py`, `models/history.py` and `models/emby.py` are not in
the corpus; the shapes below are reconstructed from their uses in
`scraper_service.py` / `scraper_media.py` and from the spec's data-model
section (the spec's `mdb_conflict` status is the source's
`EMBY_CONFLICT`). -/

inductive ScrapeStatus where
  | success
  | no_match
  | search_failed
  | api_failed
  | need_selection
  | need_season_episode
  | nfo_failed
  | move_failed
  | file_conflict
  | emby_conflict
deriving DecidableEq, Repr

inductive LogLevel where
  | info
  | success
  | warning
  | error
deriving DecidableEq, Repr

structure ScrapeLogEntry where
  message : String
  level : LogLevel := .info
deriving DecidableEq, Repr

structure ScrapeLogStep where
  name : String
  completed : Bool := true
  logs : List ScrapeLogEntry
deriving DecidableEq, Repr

inductive ConflictType where
  | no_conflict
  | series_exists
  | episode_exists
deriving DecidableEq, Repr

structure ConflictCheckResult where
  conflict_type : ConflictType
  message : Option String := none
deriving DecidableEq, Repr

structure ScrapeRequest where
  file_path : String
  output_dir : Option String := none
  metadata_dir : Option String := none
  link_mode : Option OrganizeMode := none
  auto_select : Bool := false
deriving DecidableEq, Repr

structure ScrapeResult where
  file_path : String
  status : ScrapeStatus
  parsed_title : Option String := none
  parsed_season : Option Nat := none
  parsed_episode : Option Nat := none
  search_results : List TMDBSearchResult := []
  selected_id : Option Nat := none
  series_info : Option TMDBSeries := none
  episode_info : Option TMDBEpisode := none
  dest_path : Option String := none
  nfo_path : Option String := none
  message : Option String := none
  scrape_logs : List ScrapeLogStep := []
  emby_conflict : Option ConflictCheckResult := none
deriving DecidableEq, Repr

/-- The environment of one `scrape_file` run: the filesystem plus one
oracle per external effect.  `conflictOutcome` is the result of
`_check_emby_conflict` (an `Except` since the call sits in a
catch-everything).  `enrich` models `_enrich_search_results`
(scraper_metadata.py, not in the corpus; per the spec it adds per-result
series details).  `nfoGen` models `_generate_episode_nfo` (same file).
`nfoEnabled`/`download*` are the effective config values that
`_get_effective_nfo_config` / `_get_effective_download_config`
(scraper_config.py, not in the corpus) would return.  `seriesImages`,
`episodeImage` and `subtitles` are the filesystem effects of the artwork
and subtitle steps (they delegate to `image_service` / `subtitle_service`
whose effects no claim inspects). -/
structure ScrapeEnv where
  fs : FS
  token : Option String
  searchHttp : String → HttpOutcome SearchBody
  seriesHttp : Nat → HttpOutcome TMDBSeries
  seasonHttp : Nat → Nat → HttpOutcome TMDBSeason
  conflictOutcome : Except String ConflictCheckResult
  enrich : List TMDBSearchResult → List TMDBSearchResult
  nfoGen : Except String String
  nfoEnabled : Bool
  downloadPoster : Bool
  downloadFanart : Bool
  downloadThumb : Bool
  seriesImages : FS → FS
  episodeImage : FS → FS
  subtitles : FS → FS

/-! ## Small helpers shared by the orchestrator steps -/

/-- Python truthiness of an optional integer (`0` is falsy). -/
def natTruthy : Option Nat → Bool
  | some n => n ≠ 0
  | none => false

/-- Python truthiness of an optional string (`""` is falsy). -/
def strTruthy : Option String → Bool
  | some s => s ≠ ""
  | none => false

/-- `value or default` on an optional string. -/
def strOr (o : Option String) (d : String) : String :=
  match o with
  | some s => if s ≠ "" then s else d
  | none => d

/-- `f"{value or '?'}"` on an optional integer. -/
def sOrQ : Option Nat → String
  | some n => if n = 0 then "?" else toString n
  | none => "?"

/-- Substring test (`pat in hay`). -/
def containsSubstrL (pat : List Char) : List Char → Bool
  | [] => pat.isPrefixOf []
  | c :: rest => pat.isPrefixOf (c :: rest) || containsSubstrL pat rest

/-- `_MODE_NAMES` / `_get_mode_name`. -/
def get_mode_name : Option OrganizeMode → String
  | none => "移动"
  | some .copy => "复制"
  | some .move => "移动"
  | some .hardlink => "硬链接"
  | some .symlink => "软链接"
  | some .inplace => "原地整理"

/-- `_resolve_inplace_output_dir`: two levels up when the parent is a
Season folder (the scraper's `_SEASON_FOLDER_RE` is the same pattern as
the folder-context plugin's), else one level up. -/
def resolve_inplace_output_dir (file_path : String) : String :=
  let path := pathParse file_path
  let parent := path.parent
  if seasonFolderMatch parent.name then pyPathStr parent.parent.parent
  else pyPathStr parent.parent

/-- The in-place replacement of the matching season entry by the fetched
season detail (first match, as in the enumerate/break loop). -/
def replaceFirstSeason : List TMDBSeason → Nat → TMDBSeason → List TMDBSeason
  | [], _, _ => []
  | s :: rest, n, sd =>
    if s.season_number = n then sd :: rest
    else s :: replaceFirstSeason rest n sd

/-- `ScrapeResult.episode_info` from the season detail (`for ep in
season_info.episodes: if ep.episode_number == episode_num`). -/
def findEpisodeInfo (season_info : Option TMDBSeason) (episode_num : Nat) :
    Option TMDBEpisode :=
  match season_info with
  | some s =>
    match s.episodes with
    | some eps => eps.find? (fun e => e.episode_number = episode_num)
    | none => none
  | none => none

/-- `write_text` on the content-free filesystem model. -/
def FS.writeFile (fs : FS) (p : PyPath) : FS :=
  { fs with files := p :: fs.files.erase p }

/-! ## `ScraperService.scrape_file` (scraper_service.py), stage by stage

The orchestrator is embedded as a pure function from request and
environment to result and final filesystem; a `.error` of the outer
`Except` is an exception escaping `scrape_file` (only
`TMDBNotConfiguredError` or a JSON `ValueError` of the search step can —
every other error is caught and turned into a status). -/

/-- Existence check and Step 1 (parse).  `inl` is an early return. -/
def scrapeParseStage (req : ScrapeRequest) (env : ScrapeEnv) :
    Sum ScrapeResult (ParsedInfo × ScrapeResult × List ScrapeLogStep) :=
  let path := pathParse req.file_path
  if env.fs.pathExists path = false then
    .inl { file_path := req.file_path, status := .move_failed,
           message := some ("文件不存在: " ++ req.file_path) }
  else
    let parsed := parse path.name (some req.file_path)
    let result : ScrapeResult :=
      { file_path := req.file_path, status := .success,
        parsed_title := parsed.series_name, parsed_season := parsed.season,
        parsed_episode := parsed.episode }
    let entry0 : ScrapeLogEntry := { message := "视频文件路径: " ++ req.file_path }
    if strTruthy parsed.series_name = false ∧ natTruthy parsed.tmdb_id = false then
      .inl { result with
              status := .no_match,
              message := some "无法从文件名解析出剧集名称",
              scrape_logs := [{
                name := "解析文件名", completed := false,
                logs := [entry0,
                  { message := "无法从文件名或上层文件夹解析出剧集信息"
                    level := .error }] }] }
    else
      let msg :=
        if natTruthy parsed.tmdb_id then
          "从路径提取 TMDB ID: " ++ toString (parsed.tmdb_id.getD 0) ++
            ", 剧名: " ++ strOr parsed.series_name "未知" ++
            ", S" ++ sOrQ parsed.season ++ "E" ++ sOrQ parsed.episode
        else
          "解析结果: " ++ parsed.series_name.getD "" ++
            " S" ++ sOrQ parsed.season ++ "E" ++ sOrQ parsed.episode
      .inr (parsed, result,
        [{ name := "解析文件名", logs := [entry0, { message := msg }] }])

/-- Continuation state after a TMDB candidate is fixed. -/
structure SearchCont where
  result : ScrapeResult
  selected : Nat
  logs : List ScrapeLogStep
deriving Repr

/-- Step 2/3: resolve the TMDB candidate (direct id from the path, or
search plus selection). -/
def scrapeSearchStage (req : ScrapeRequest) (env : ScrapeEnv)
    (parsed : ParsedInfo) (result : ScrapeResult)
    (logs : List ScrapeLogStep) :
    Except String (Sum ScrapeResult SearchCont) :=
  if natTruthy parsed.tmdb_id then
    let tid := parsed.tmdb_id.getD 0
    .ok (.inr
      { result := { result with selected_id := some tid }
        selected := tid
        logs := logs ++ [{
          name := "搜索 TMDB"
          logs := [{ message := "使用路径中的 TMDB ID: " ++ toString tid ++
            "，跳过搜索步骤" }] }] })
  else
    let query := parsed.series_name.getD ""
    let log0 : ScrapeLogEntry := { message := "搜索关键词: " ++ query }
    match search_series_by_api env.token env.searchHttp query with
    | .error .timeout =>
      .ok (.inl { result with
        status := .search_failed,
        message := some "TMDB 搜索超时，请检查网络或 Cookie",
        scrape_logs := logs ++ [{
          name := "搜索 TMDB", completed := false,
          logs := [log0, { message := "TMDB 搜索超时", level := .error }] }] })
    | .error (.connError m) =>
      .ok (.inl { result with
        status := .search_failed,
        message := some ("TMDB 搜索失败: " ++ m),
        scrape_logs := logs ++ [{
          name := "搜索 TMDB", completed := false,
          logs := [log0,
            { message := "TMDB 搜索失败: " ++ m, level := .error }] }] })
    | .error .notConfigured => .error "TMDBNotConfiguredError"
    | .error (.valueErr m) => .error ("ValueError: " ++ m)
    | .ok resp =>
      let adult := resp.results.filter (fun r => r.adult)
      let countEntry : ScrapeLogEntry :=
        { message := "找到 " ++ toString adult.length ++ " 个匹配结果" }
      match adult with
      | [] =>
        .ok (.inl { result with
          status := .no_match, search_results := [],
          message := some ("未找到匹配的成人剧集: " ++ query),
          scrape_logs := logs ++ [{
            name := "搜索 TMDB", completed := false,
            logs := [log0, countEntry,
              { message := "未找到匹配的成人剧集", level := .warning }] }] })
      | a :: rest =>
        if req.auto_select ∧ rest = [] then
          .ok (.inr
            { result := { result with
                search_results := adult, selected_id := some a.id }
              selected := a.id
              logs := logs ++ [{
                name := "搜索 TMDB"
                logs := [log0, countEntry] }] })
        else if req.auto_select then
          .ok (.inl { result with
            status := .need_selection,
            search_results := env.enrich adult,
            message := some ("找到 " ++ toString adult.length ++
              " 个匹配结果，请手动选择"),
            scrape_logs := logs ++ [{
              name := "搜索 TMDB"
              logs := [log0, countEntry,
                { message := "获取各剧集详情..." }] }] })
        else
          .ok (.inl { result with
            status := .need_selection,
            search_results := env.enrich adult,
            message := some "请手动选择匹配的剧集",
            scrape_logs := logs ++ [{
              name := "搜索 TMDB"
              logs := [log0, countEntry,
                { message := "获取各剧集详情..." }] }] })

/-- Continuation state after the series detail fetch. -/
structure DetailCont where
  series : TMDBSeries
  result : ScrapeResult
  logs : List ScrapeLogStep
deriving Repr

/-- Step 4: fetch the series detail. -/
def scrapeDetailStage (env : ScrapeEnv) (selected : Nat)
    (result : ScrapeResult) (logs : List ScrapeLogStep) :
    Except String (Sum ScrapeResult DetailCont) :=
  let log0 : ScrapeLogEntry :=
    { message := "获取剧集详情: TMDB ID " ++ toString selected }
  let fail := fun (logMsg resMsg : String) =>
    Sum.inl (α := ScrapeResult) (β := DetailCont)
      { result with
        status := .api_failed, message := some resMsg,
        scrape_logs := logs ++ [{
          name := "获取详情", completed := false,
          logs := [log0, { message := logMsg, level := .error }] }] }
  match get_series_by_api env.token env.seriesHttp selected with
  | .error .timeout => .ok (fail "TMDB API 请求超时" "TMDB API 请求超时")
  | .error (.connError m) =>
    .ok (fail ("TMDB API 请求失败: " ++ m) ("TMDB API 请求失败: " ++ m))
  | .error (.valueErr m) => .ok (fail m m)
  | .error .notConfigured => .error "TMDBNotConfiguredError"
  | .ok none =>
    .ok (fail "无法获取剧集详情" ("无法获取剧集详情: ID " ++ toString selected))
  | .ok (some series) =>
    .ok (.inr
      { series := series
        result := { result with series_info := some series }
        logs := logs ++ [{
          name := "获取详情"
          logs := [log0, { message := "剧集名称: " ++ series.name }] }] })

/-- Continuation state after season/episode are determined. -/
structure EpisodeCont where
  season_num : Nat
  episode_num : Nat
  result : ScrapeResult
  logs : List ScrapeLogStep
deriving Repr

/-- The `确定季/集` log step (run on the possibly auto-filled episode). -/
def selectStepLog (origSeason episodeAfter : Option Nat)
    (season_num episode_num : Nat) : ScrapeLogStep :=
  if origSeason ≠ none ∧ episodeAfter ≠ none then
    { name := "确定季/集",
      logs := [{ message := "从文件名解析: S" ++ pad2 season_num ++
        "E" ++ pad2 episode_num }] }
  else
    let msgs :=
      (if origSeason = none then ["季号默认为 1"] else []) ++
        (if episodeAfter = none then ["集号默认为 1"] else [])
    { name := "确定季/集",
      logs := [{ message := "程序自动选择: S" ++ pad2 season_num ++
        "E" ++ pad2 episode_num ++ " (" ++ String.intercalate ", " msgs ++ ")" }] }

/-- Step 4.5 and the season/episode determination: a missing episode is
auto-filled only when the series has exactly one episode
(`total_episodes == 1`); otherwise the run terminates with
`need_season_episode`, after trying to swap the season stub for the
fetched season detail.  (A 404 season fetch would assign `None` into the
seasons list in Python; the typed model keeps the stub in that corner.) -/
def scrapeEpisodeStage (env : ScrapeEnv) (selected : Nat)
    (parsed : ParsedInfo) (series : TMDBSeries) (result : ScrapeResult)
    (logs : List ScrapeLogStep) : Sum ScrapeResult EpisodeCont :=
  let continueWith := fun (episodeAfter : Option Nat) =>
    let season_num := parsed.season.getD 1
    let episode_num := episodeAfter.getD 1
    Sum.inr (α := ScrapeResult)
      { season_num := season_num, episode_num := episode_num,
        result := result,
        logs := logs ++ [selectStepLog parsed.season episodeAfter season_num episode_num] }
  if parsed.episode = none then
    let total := series.number_of_episodes.getD 0
    if total = 1 then continueWith (some 1)
    else
      let season_num := parsed.season.getD 1
      let series2 :=
        match get_season_by_api env.token env.seasonHttp selected season_num with
        | .ok (some sd) =>
          { series with seasons := replaceFirstSeason series.seasons season_num sd }
        | .ok none => series
        | .error _ => series
      .inl { result with
             status := .need_season_episode,
             series_info := some series2,
             message := some ("剧集共 " ++ toString total ++ " 集，请手动选择"),
             scrape_logs := logs }
  else continueWith parsed.episode

/-- Step 5: the season detail used for episode info and artwork
(failures only log a warning). -/
def scrapeSeasonInfo (env : ScrapeEnv) (selected season_num : Nat) :
    Option TMDBSeason :=
  match get_season_by_api env.token env.seasonHttp selected season_num with
  | .ok s => s
  | .error _ => none

/-- Step 5.5: the Emby conflict check; an exception inside the check is
swallowed into `no_conflict`.  `episode_exists` terminates the run,
`series_exists` logs a success note and continues. -/
def scrapeConflictStage (env : ScrapeEnv) (result : ScrapeResult)
    (logs : List ScrapeLogStep) : Sum ScrapeResult (List ScrapeLogStep) :=
  let conflict :=
    match env.conflictOutcome with
    | .ok r => r
    | .error _ => { conflict_type := .no_conflict }
  if conflict.conflict_type = .episode_exists then
    .inl { result with
           status := .emby_conflict,
           message := conflict.message,
           emby_conflict := some conflict,
           scrape_logs := logs ++ [{
             name := "Emby 冲突检查", completed := false,
             logs := [{ message := strOr conflict.message "Emby 中已存在该集"
                        level := .warning }] }] }
  else if conflict.conflict_type = .series_exists then
    .inr (logs ++ [{
      name := "Emby 冲突检查"
      logs := [{ message := strOr conflict.message "Emby 中已存在该剧集"
                 level := .success }] }])
  else
    .inr (logs ++ [{
      name := "Emby 冲突检查"
      logs := [{ message := "无冲突" }] }])

/-- Step 6: generate the episode NFO body. -/
def scrapeNfoStage (env : ScrapeEnv) (result : ScrapeResult)
    (logs : List ScrapeLogStep) : Sum ScrapeResult (String × List ScrapeLogStep) :=
  match env.nfoGen with
  | .ok content =>
    .inr (content, logs ++ [{
      name := "生成 NFO"
      logs := [{ message := "NFO 内容生成成功" }] }])
  | .error e =>
    .inl { result with
           status := .nfo_failed,
           message := some ("NFO 生成失败: " ++ e),
           scrape_logs := logs ++ [{
             name := "生成 NFO", completed := false,
             logs := [{ message := "NFO 生成失败: " ++ e, level := .error }] }] }

/-- The effective output directory and link mode of Step 7: in-place mode
rewrites itself to a move into the resolved parent, logging the decision;
other modes pass the request through. -/
def effectiveOutput (req : ScrapeRequest) :
    Option String × Option OrganizeMode × List ScrapeLogEntry :=
  if req.link_mode = some OrganizeMode.inplace then
    let d := resolve_inplace_output_dir req.file_path
    (some d, some OrganizeMode.move,
      [{ message := "原地整理：在 " ++ d ++ " 内重命名" }])
  else (req.output_dir, req.link_mode, [])

/-- Continuation state after a successful rename. -/
structure RenameCont where
  dest_path : String
  fs : FS
  moveLogs : List ScrapeLogEntry
  result : ScrapeResult
deriving Repr

/-- The `RenameRequest` Step 7 builds from the scrape state (year from
`series.first_air_date`, output directory and mode after the in-place
rewrite). -/
def scrapeRenameRequest (req : ScrapeRequest) (series : TMDBSeries)
    (selected season_num episode_num : Nat) : RenameRequest :=
  let eff := effectiveOutput req
  { source_path := req.file_path, title := series.name,
    season := season_num, episode := episode_num,
    year := series.first_air_date.map (fun d => d.year),
    tmdb_id := some selected,
    output_dir := eff.1, link_mode := eff.2.1 }

/-- Step 7, the `execute_rename` call and its failure translation: a
failed rename whose error mentions `already exists` becomes
`FILE_CONFLICT` (with `dest_path` recorded), any other failure becomes
`MOVE_FAILED`.  Either way the filesystem mutations `execute_rename`
already performed (the destination directory chain) persist. -/
def scrapeRenameStage (req : ScrapeRequest) (env : ScrapeEnv)
    (series : TMDBSeries) (selected season_num episode_num : Nat)
    (result : ScrapeResult) (logs : List ScrapeLogStep) :
    Sum (ScrapeResult × FS) RenameCont :=
  let mode_name := get_mode_name req.link_mode
  let eff := effectiveOutput req
  let rreq := scrapeRenameRequest req series selected season_num episode_num
  let mlogs := eff.2.2 ++
    [{ message := "源文件: " ++ req.file_path },
     { message := "目标目录: " ++ strOr eff.1 "原目录" },
     { message := "整理模式: " ++ mode_name }]
  let rr := execute_rename rreq env.fs
  if rr.1.success = false then
    if strTruthy rr.1.error ∧
        containsSubstrL "already exists".data (rr.1.error.getD "").data then
      .inl ({ result with
        status := .file_conflict,
        message := some ("目标文件已存在: " ++ rr.1.dest_path),
        dest_path := some rr.1.dest_path,
        scrape_logs := logs ++ [{
          name := mode_name ++ "文件", completed := false,
          logs := mlogs ++ [{
            message := "目标文件已存在: " ++ rr.1.dest_path,
            level := .warning }] }] }, rr.2)
    else
      .inl ({ result with
        status := .move_failed,
        message := rr.1.error,
        scrape_logs := logs ++ [{
          name := mode_name ++ "文件", completed := false,
          logs := mlogs ++ [{
            message := mode_name ++ "失败: " ++ rr.1.error.getD "None",
            level := .error }] }] }, rr.2)
  else
    .inr { dest_path := rr.1.dest_path, fs := rr.2,
           moveLogs := mlogs ++
             [{ message := "文件" ++ mode_name ++ "成功: " ++ rr.1.dest_path }],
           result := { result with dest_path := some rr.1.dest_path } }

/-- The metadata writes of Step 7 after a successful rename: pick the
metadata folders (mirroring the structure below `metadata_dir` when set,
else next to the video), then — when NFO generation is enabled — write the
episode NFO, a `tvshow.nfo` if absent and a `season.nfo` if absent. -/
def scrapeMetadataStage (req : ScrapeRequest) (env : ScrapeEnv)
    (destPathStr : String) (fs : FS) (result : ScrapeResult)
    (mlogs : List ScrapeLogEntry) :
    FS × ScrapeResult × List ScrapeLogEntry :=
  let dest_file := pathParse destPathStr
  let season_folder := dest_file.parent
  let series_folder := season_folder.parent
  let meta :=
    if strTruthy req.metadata_dir then
      let mser := pyJoin (pathParse (req.metadata_dir.getD "")) series_folder.name
      let msea := pyJoin mser season_folder.name
      (mser, msea, fs.mkdirParents msea)
    else (series_folder, season_folder, fs)
  let mser := meta.1
  let msea := meta.2.1
  let fs1 := meta.2.2
  if env.nfoEnabled then
    let nfo_path := pyJoin msea (dest_file.stem ++ ".nfo")
    let fs2 := fs1.writeFile nfo_path
    let r1 := { result with nfo_path := some (pyPathStr nfo_path) }
    let l1 := mlogs ++ [{ message := "NFO 文件已写入: " ++ pyPathStr nfo_path }]
    let tv := pyJoin mser "tvshow.nfo"
    let st2 :=
      if fs2.pathExists tv = false then
        ((fs2.mkdirParents mser).writeFile tv,
          l1 ++ [{ message := "tvshow.nfo 已生成" }])
      else (fs2, l1)
    let sn := pyJoin msea "season.nfo"
    if st2.1.pathExists sn = false then
      (st2.1.writeFile sn, r1, st2.2 ++ [{ message := "season.nfo 已生成" }])
    else (st2.1, r1, st2.2)
  else
    (fs1, result, mlogs ++ [{ message := "NFO 生成已跳过（配置禁用）" }])

/-- Step 8, the image downloads, driven by the effective download
config. -/
def scrapeImageStage (env : ScrapeEnv) (fs : FS) : FS × List ScrapeLogEntry :=
  let s1 :=
    if env.downloadPoster || env.downloadFanart then
      (env.seriesImages fs, [({ message := "剧集图片处理完成" } : ScrapeLogEntry)])
    else (fs, [({ message := "剧集图片下载已跳过（配置禁用）" } : ScrapeLogEntry)])
  if env.downloadThumb then
    (env.episodeImage s1.1, s1.2 ++ [{ message := "集封面图处理完成" }])
  else (s1.1, s1.2 ++ [{ message := "集封面图下载已跳过（配置禁用）" }])

/-- `ScraperService.scrape_file`: the composition of the stages.  The
result carries the final `ScrapeResult` and the filesystem after all
mutations; an `Except.error` is an exception escaping the coroutine. -/
def scrape_file (req : ScrapeRequest) (env : ScrapeEnv) :
    Except String (ScrapeResult × FS) :=
  match scrapeParseStage req env with
  | .inl r => .ok (r, env.fs)
  | .inr (parsed, result0, logs0) =>
    match scrapeSearchStage req env parsed result0 logs0 with
    | .error e => .error e
    | .ok (.inl r) => .ok (r, env.fs)
    | .ok (.inr sc) =>
      match scrapeDetailStage env sc.selected sc.result sc.logs with
      | .error e => .error e
      | .ok (.inl r) => .ok (r, env.fs)
      | .ok (.inr dc) =>
        match scrapeEpisodeStage env sc.selected parsed dc.series dc.result dc.logs with
        | .inl r => .ok (r, env.fs)
        | .inr ec =>
          let season_info := scrapeSeasonInfo env sc.selected ec.season_num
          match scrapeConflictStage env ec.result ec.logs with
          | .inl r => .ok (r, env.fs)
          | .inr logs2 =>
            match scrapeNfoStage env ec.result logs2 with
            | .inl r => .ok (r, env.fs)
            | .inr nfoCont =>
              match scrapeRenameStage req env dc.series sc.selected
                  ec.season_num ec.episode_num ec.result nfoCont.2 with
              | .inl rf => .ok rf
              | .inr rc =>
                let m := scrapeMetadataStage req env rc.dest_path rc.fs
                  rc.result rc.moveLogs
                let im := scrapeImageStage env m.1
                let mode_name := get_mode_name req.link_mode
                .ok ({ m.2.1 with
                        episode_info := findEpisodeInfo season_info ec.episode_num,
                        parsed_season := some ec.season_num,
                        parsed_episode := some ec.episode_num,
                        status := .success,
                        message := some "刮削完成",
                        scrape_logs := nfoCont.2 ++
                          [{ name := mode_name ++ "文件", logs := m.2.2 },
                           { name := "下载图片", logs := im.2 }] },
                      env.subtitles im.1)

/-! ## Concrete scrape scenarios

One environment per claim scenario; the oracles are total functions, the
config flags enable NFO and disable the downloads (their values do not
matter to the claims below). -/

/-- An environment with all the fixed parts of the demo scenarios. -/
def mkDemoEnv (fs : FS) (search : String → HttpOutcome SearchBody)
    (seriesO : Nat → HttpOutcome TMDBSeries)
    (seasonO : Nat → Nat → HttpOutcome TMDBSeason)
    (conflict : Except String ConflictCheckResult) : ScrapeEnv :=
  { fs := fs, token := some "t", searchHttp := search, seriesHttp := seriesO,
    seasonHttp := seasonO, conflictOutcome := conflict,
    enrich := id, nfoGen := .ok "nfo", nfoEnabled := true,
    downloadPoster := false, downloadFanart := false, downloadThumb := false,
    seriesImages := id, episodeImage := id, subtitles := id }

def demoFs : FS :=
  { files := [pathParse "/v/Show S01.mp4"]
    dirs := [pathParse "/v", pathParse "/out"] }

def demoSearch : String → HttpOutcome SearchBody := fun _ =>
  .resp 200 { items := [{ id := 5, name := "Show", adult := true }], total := 1 }

def demoSeries1 : TMDBSeries :=
  { id := 5, name := "Show", number_of_episodes := some 1,
    seasons := [{ season_number := 1, name := "S1" }] }

def demoSeason404 : Nat → Nat → HttpOutcome TMDBSeason := fun _ _ =>
  .resp 404 { season_number := 0, name := "" }

def demoReq : ScrapeRequest :=
  { file_path := "/v/Show S01.mp4", output_dir := some "/out", auto_select := true }

def noConflict : Except String ConflictCheckResult :=
  .ok { conflict_type := .no_conflict }

/-- A series whose `number_of_episodes` is absent (so `or 0` gives 0). -/
def c1SeriesZero : TMDBSeries :=
  { id := 5, name := "Show", seasons := [{ season_number := 1, name := "S1" }] }

def c1SeasonDetail : TMDBSeason :=
  { season_number := 1, name := "Season 1 detail",
    episodes := some [{ episode_number := 1, name := "e1" },
                      { episode_number := 2, name := "e2" }] }

def c1Env : ScrapeEnv :=
  mkDemoEnv demoFs demoSearch (fun _ => .resp 200 c1SeriesZero)
    (fun _ _ => .resp 200 c1SeasonDetail) noConflict

def c1EnvOne : ScrapeEnv :=
  mkDemoEnv demoFs demoSearch (fun _ => .resp 200 demoSeries1)
    demoSeason404 noConflict

def c1Parsed : ParsedInfo :=
  { original_filename := "Show S01.mp4", series_name := some "Show",
    is_parsed := true }

def c1Res : ScrapeResult := { file_path := "/v/Show S01.mp4", status := .success }

def c2Fs : FS :=
  { files := [pathParse "/videos/〇〇〇する七人の孕女 第1話.mp4"]
    dirs := [pathParse "/videos", pathParse "/out"] }

def c2Search : String → HttpOutcome SearchBody := fun q =>
  if q = "七人の孕女" then
    .resp 200 { items := [{ id := 77, name := "七人の孕女", adult := true }], total := 1 }
  else .resp 200 { items := [], total := 0 }

def c2Env : ScrapeEnv :=
  mkDemoEnv c2Fs c2Search (fun _ => .resp 200 { id := 77, name := "七人の孕女" })
    demoSeason404 noConflict

def c2Req : ScrapeRequest :=
  { file_path := "/videos/〇〇〇する七人の孕女 第1話.mp4",
    output_dir := some "/out", auto_select := true }

/-- A filesystem in which the destination of the demo rename already
exists. -/
def c3Fs : FS :=
  { files := [pathParse "/v/Show S01.mp4",
              pathParse "/out/Show [tmdbid-5]/Season 1/Show - S01E01 -.mp4"]
    dirs := [pathParse "/v", pathParse "/out"] }

def c3Env : ScrapeEnv :=
  mkDemoEnv c3Fs demoSearch (fun _ => .resp 200 demoSeries1)
    demoSeason404 noConflict

def c3RReq : RenameRequest := scrapeRenameRequest demoReq demoSeries1 5 1 1

def c3Res : ScrapeResult := { file_path := "/v/Show S01.mp4", status := .success }

def c4Conflict : ConflictCheckResult :=
  { conflict_type := .episode_exists, message := some "Emby!" }

def c4Env : ScrapeEnv :=
  mkDemoEnv demoFs demoSearch (fun _ => .resp 200 demoSeries1)
    demoSeason404 (.ok c4Conflict)

def dummyResult : ScrapeResult := { file_path := "", status := .success }

def c4Parse3 : ParsedInfo × ScrapeResult × List ScrapeLogStep :=
  match scrapeParseStage demoReq c4Env with
  | .inr t => t
  | .inl _ => ({ original_filename := "" }, dummyResult, [])

def c4SC : SearchCont :=
  match scrapeSearchStage demoReq c4Env c4Parse3.1 c4Parse3.2.1 c4Parse3.2.2 with
  | .ok (.inr sc) => sc
  | _ => { result := dummyResult, selected := 0, logs := [] }

def c4DC : DetailCont :=
  match scrapeDetailStage c4Env c4SC.selected c4SC.result c4SC.logs with
  | .ok (.inr dc) => dc
  | _ => { series := { id := 0, name := "" }, result := dummyResult, logs := [] }

def c4EC : EpisodeCont :=
  match scrapeEpisodeStage c4Env c4SC.selected c4Parse3.1 c4DC.series
      c4DC.result c4DC.logs with
  | .inr ec => ec
  | .inl _ => { season_num := 0, episode_num := 0, result := dummyResult, logs := [] }

def c8Body : SearchBody :=
  { items := [{ id := 5, name := "Show", adult := true }], total := 1 }

def c8Env : ScrapeEnv :=
  mkDemoEnv demoFs (fun _ => .resp 401 c8Body) (fun _ => .resp 200 demoSeries1)
    demoSeason404 noConflict

def c8Parse3 : ParsedInfo × ScrapeResult × List ScrapeLogStep :=
  match scrapeParseStage demoReq c8Env with
  | .inr t => t
  | .inl _ => ({ original_filename := "" }, dummyResult, [])

/-! ## Substring helper lemmas -/

theorem isPrefixOf_nil_all (l : List Char) :
    List.isPrefixOf [] l = true := by
  cases l <;> rfl

theorem isPrefixOf_append_ext :
    ∀ (pat l1 l2 : List Char), pat.isPrefixOf l1 = true →
      pat.isPrefixOf (l1 ++ l2) = true
  | [], l1, l2, _ => isPrefixOf_nil_all (l1 ++ l2)
  | _ :: _, [], _, h => by simp [List.isPrefixOf] at h
  | a :: as, b :: bs, l2, h => by
    simp only [List.isPrefixOf, Bool.and_eq_true] at h
    simp only [List.cons_append, List.isPrefixOf, Bool.and_eq_true]
    exact ⟨h.1, isPrefixOf_append_ext as bs l2 h.2⟩

theorem containsSubstrL_append_left (pat : List Char) :
    ∀ (l1 l2 : List Char), containsSubstrL pat l1 = true →
      containsSubstrL pat (l1 ++ l2) = true := by
  intro l1
  induction l1 with
  | nil =>
    intro l2 h
    simp only [containsSubstrL] at h
    have hp : pat = [] := by
      cases pat with
      | nil => rfl
      | cons a as => simp [List.isPrefixOf] at h
    subst hp
    cases l2 with
    | nil => rfl
    | cons c cs =>
      simp only [List.nil_append, containsSubstrL, isPrefixOf_nil_all,
        Bool.true_or]
  | cons c cs ih =>
    intro l2 h
    simp only [containsSubstrL, Bool.or_eq_true] at h
    simp only [List.cons_append, containsSubstrL, Bool.or_eq_true]
    cases h with
    | inl h =>
      left
      have := isPrefixOf_append_ext pat (c :: cs) l2 h
      simpa using this
    | inr h => exact Or.inr (ih l2 h)

theorem strData_append (a b : String) : (a ++ b).data = a.data ++ b.data := rfl

theorem dest_error_nonempty (d : String) :
    ("Destination file already exists: " ++ d) ≠ "" := by
  intro hcontra
  have h2 := congrArg String.data hcontra
  rw [strData_append] at h2
  have h3 := List.append_eq_nil.mp h2
  exact absurd h3.1 (by decide)

theorem dest_error_contains_already_exists (d : String) :
    containsSubstrL "already exists".data
      ("Destination file already exists: " ++ d).data = true := by
  rw [strData_append]
  exact containsSubstrL_append_left _ _ _ (by decide)

/-! ### Claim C1 -/

/-- **C1 (counterexample).** The claim says a missing episode with a total
episode count ≤ 1 (including an absent `number_of_episodes`, i.e. 0) is
defaulted to 1 and the pipeline continues.  In the code only
`total_episodes == 1` continues: with `number_of_episodes` absent the run
stops with `need_season_episode` ("剧集共 0 集") and the episode is not
defaulted. -/
theorem scrape_episode_total_zero_not_continued :
    (scrape_file demoReq c1Env).toOption.map
        (fun p => (p.1.status, p.1.parsed_episode, p.1.message)) =
      some (.need_season_episode, none, some "剧集共 0 集，请手动选择") := by
  decide

/-- **C1 (amended).** In `scrape_file`, when the parsed episode is absent
after the series details are fetched, the season defaults to 1 when
absent, and the dispatch is on `total_episodes == 1` exactly: if
`number_of_episodes` is 1 the episode is auto-set to 1 and the pipeline
continues; for every other total (0, absent, or > 1) the run stops with
`need_season_episode`, with the fetched season detail swapped into
`series_info.seasons` when the season fetch succeeds. -/
theorem scrape_episode_missing_dispatch
    (env : ScrapeEnv) (selected : Nat) (parsed : ParsedInfo)
    (series : TMDBSeries) (result : ScrapeResult) (logs : List ScrapeLogStep)
    (hep : parsed.episode = none) :
    (series.number_of_episodes = some 1 →
      scrapeEpisodeStage env selected parsed series result logs =
        .inr { season_num := parsed.season.getD 1
               episode_num := 1
               result := result
               logs := logs ++
                 [selectStepLog parsed.season (some 1) (parsed.season.getD 1) 1] }) ∧
    (series.number_of_episodes.getD 0 ≠ 1 →
      ∃ r, scrapeEpisodeStage env selected parsed series result logs = .inl r ∧
        r.status = .need_season_episode ∧
        r.message = some ("剧集共 " ++ toString (series.number_of_episodes.getD 0) ++
          " 集，请手动选择") ∧
        ∀ sd, get_season_by_api env.token env.seasonHttp selected
            (parsed.season.getD 1) = .ok (some sd) →
          r.series_info = some { series with
            seasons := replaceFirstSeason series.seasons (parsed.season.getD 1) sd }) := by
  constructor
  · intro h
    dsimp only [scrapeEpisodeStage]
    rw [if_pos hep, h, Option.getD_some, if_pos rfl]
    rfl
  · intro h
    dsimp only [scrapeEpisodeStage]
    rw [if_pos hep, if_neg h]
    exact ⟨_, rfl, rfl, rfl, fun sd hsd => by rw [hsd]⟩

/-- **C1 (witness).** The auto-select branch at a concrete one-episode
series: the stage continues with episode 1 and the default season 1. -/
theorem scrape_episode_missing_dispatch_witness :
    c1Parsed.episode = none ∧ demoSeries1.number_of_episodes = some 1 ∧
    scrapeEpisodeStage c1EnvOne 5 c1Parsed demoSeries1 c1Res [] =
      .inr { season_num := 1, episode_num := 1, result := c1Res,
             logs := [selectStepLog none (some 1) 1 1] } :=
  ⟨rfl, rfl,
    (scrape_episode_missing_dispatch c1EnvOne 5 c1Parsed demoSeries1 c1Res []
      rfl).1 rfl⟩

/-! ### Claim C2 -/

/-- **C2 (counterexample).** The claimed scenario: primary search for
`〇〇〇する七人の孕女` empty, fallback candidate `七人の孕女` has one
adult result with id 77, auto-select.  The claim expects
`status = success` and `selected_id = 77`; the run instead ends in
`no_match` with no selection, because `scrape_file` calls
`search_series_by_api` — not `search_series_with_fallback` — and stops at
the empty primary result. -/
theorem scrape_search_fallback_not_reached :
    (scrape_file c2Req c2Env).toOption.map
        (fun p => (p.1.status, p.1.selected_id, p.1.message)) =
      some (.no_match, none,
        some "未找到匹配的成人剧集: 〇〇〇する七人の孕女") := by
  decide

/-- **C2 (amended).** In the claimed scenario the orchestrator's search
step uses only the primary `search_series_by_api`, so `scrape_file` ends
in `no_match` with `selected_id = none`; the fallback machinery — which
lives on the search API endpoint, not in `scrape_file` — would find the
series: `search_series_with_fallback` on the same environment and query
returns exactly the id-77 result with
`effective_query = "七人の孕女"`. -/
theorem scrape_search_primary_only :
    ((scrape_file c2Req c2Env).toOption.map
        (fun p => (p.1.status, p.1.selected_id)) = some (.no_match, none)) ∧
    ((search_series_with_fallback c2Env.token c2Env.searchHttp
          "〇〇〇する七人の孕女").toOption.map
        (fun r => (r.results.map (fun x => x.id), r.effective_query)) =
      some ([77], some "七人の孕女")) := by
  exact ⟨by decide, by decide⟩

/-! ### Claim C3 -/

/-- Translation lemma: a failed `execute_rename` whose error mentions
`already exists` makes Step 7 return `file_conflict` with the destination
recorded and the rename's filesystem kept. -/
theorem scrapeRenameStage_conflict
    (req : ScrapeRequest) (env : ScrapeEnv) (series : TMDBSeries)
    (selected season_num episode_num : Nat) (result : ScrapeResult)
    (logs : List ScrapeLogStep) (rr : RenameResult) (fs2 : FS)
    (hex : execute_rename
        (scrapeRenameRequest req series selected season_num episode_num)
        env.fs = (rr, fs2))
    (hfail : rr.success = false)
    (htr : strTruthy rr.error = true)
    (hct : containsSubstrL "already exists".data ((rr.error.getD "").data) = true) :
    ∃ r, scrapeRenameStage req env series selected season_num episode_num
        result logs = .inl (r, fs2) ∧
      r.status = .file_conflict ∧
      r.message = some ("目标文件已存在: " ++ rr.dest_path) ∧
      r.dest_path = some rr.dest_path := by
  dsimp only [scrapeRenameStage]
  rw [hex]
  dsimp only
  rw [if_pos hfail, if_pos ⟨htr, hct⟩]
  exact ⟨_, rfl, rfl, rfl, rfl⟩

/-- **C3.** For every rename request Step 7 builds, if the computed
destination exists and differs from the source, `execute_rename` fails
with the `Destination file already exists` error and leaves the file set
— in particular the destination's prior content and the source file —
untouched, and `scrapeRenameStage` translates exactly this failure into
`status = file_conflict` with the destination recorded. -/
theorem dest_exists_rename_fails_scrape_file_conflict
    (req : ScrapeRequest) (env : ScrapeEnv) (series : TMDBSeries)
    (selected season_num episode_num : Nat) (result : ScrapeResult)
    (logs : List ScrapeLogStep) (rreq : RenameRequest) (src : PyPath)
    (pv : RenamePaths)
    (hrq : scrapeRenameRequest req series selected season_num episode_num = rreq)
    (hsp : pathParse rreq.source_path = src)
    (hpv : preview_rename rreq = pv)
    (hsrc : env.fs.pathExists src = true)
    (hdest : env.fs.pathExists pv.dest_path = true)
    (hne : pv.dest_path ≠ src) :
    (execute_rename rreq env.fs).1.success = false ∧
    (execute_rename rreq env.fs).1.error =
      some ("Destination file already exists: " ++ pyPathStr pv.dest_path) ∧
    (execute_rename rreq env.fs).2.files = env.fs.files ∧
    ∃ r, scrapeRenameStage req env series selected season_num episode_num
          result logs = .inl (r, (execute_rename rreq env.fs).2) ∧
      r.status = .file_conflict ∧
      r.message = some ("目标文件已存在: " ++ pyPathStr pv.dest_path) ∧
      r.dest_path = some (pyPathStr pv.dest_path) := by
  have hdest1 : (env.fs.mkdirParents pv.dest_folder).pathExists pv.dest_path = true := by
    unfold FS.pathExists at hdest ⊢
    unfold FS.mkdirParents
    rcases Bool.or_eq_true_iff.mp hdest with h | h
    · simp only [Bool.or_eq_true_iff]
      exact Or.inl h
    · simp only [Bool.or_eq_true_iff, List.mem_append] at h ⊢
      simp only [decide_eq_true_eq] at h ⊢
      exact Or.inr (Or.inr h)
  have hsrcF : ¬ env.fs.pathExists src = false := by
    simp [hsrc]
  have hE : execute_rename rreq env.fs =
      ({ source_path := pyPathStr src, dest_path := pyPathStr pv.dest_path,
         success := false,
         error := some ("Destination file already exists: " ++
           pyPathStr pv.dest_path) },
       env.fs.mkdirParents pv.dest_folder) := by
    simp only [execute_rename]
    rw [hsp, hpv, if_neg hsrcF, if_pos ⟨hdest1, hne⟩]
  refine ⟨by rw [hE], by rw [hE], by rw [hE]; rfl, ?_⟩
  have hTr : strTruthy (some ("Destination file already exists: " ++
      pyPathStr pv.dest_path)) = true := by
    simp [strTruthy, dest_error_nonempty]
  obtain ⟨r, hst, h1, h2, h3⟩ :=
    scrapeRenameStage_conflict req env series selected season_num episode_num
      result logs
      { source_path := pyPathStr src
        dest_path := pyPathStr pv.dest_path
        success := false
        error := some ("Destination file already exists: " ++
          pyPathStr pv.dest_path) }
      (env.fs.mkdirParents pv.dest_folder)
      (by rw [hrq]; exact hE) rfl hTr
      (dest_error_contains_already_exists (pyPathStr pv.dest_path))
  exact ⟨r, by rw [hE]; exact hst, h1, h2, h3⟩

/-- **C3 (witness).** The demo rename request with the destination
already present: the rename fails with the destination-exists error, the
file set is unchanged, and Step 7 reports `file_conflict`. -/
theorem dest_exists_rename_fails_scrape_file_conflict_witness :
    c3Env.fs.pathExists (pathParse c3RReq.source_path) = true ∧
    c3Env.fs.pathExists (preview_rename c3RReq).dest_path = true ∧
    (preview_rename c3RReq).dest_path ≠ pathParse c3RReq.source_path ∧
    ((execute_rename c3RReq c3Env.fs).1.success = false ∧
     (execute_rename c3RReq c3Env.fs).1.error =
       some ("Destination file already exists: " ++
         pyPathStr (preview_rename c3RReq).dest_path) ∧
     (execute_rename c3RReq c3Env.fs).2.files = c3Env.fs.files ∧
     ∃ r, scrapeRenameStage demoReq c3Env demoSeries1 5 1 1 c3Res [] =
         .inl (r, (execute_rename c3RReq c3Env.fs).2) ∧
       r.status = .file_conflict ∧
       r.message = some ("目标文件已存在: " ++
         pyPathStr (preview_rename c3RReq).dest_path) ∧
       r.dest_path = some (pyPathStr (preview_rename c3RReq).dest_path)) :=
  ⟨by decide, by decide, by decide,
    dest_exists_rename_fails_scrape_file_conflict demoReq c3Env demoSeries1
      5 1 1 c3Res [] c3RReq (pathParse c3RReq.source_path)
      (preview_rename c3RReq) rfl rfl rfl (by decide) (by decide) (by decide)⟩

/-! ### Claim C4 -/

/-- **C4.** Whenever the Emby conflict oracle reports `episode_exists`,
the run stops with `status = emby_conflict`, the conflict recorded in
`emby_conflict` and the oracle's message as the result message, and no
placement is performed: `scrape_file` returns the environment's
filesystem unchanged (no file moved, no NFO written).  A `series_exists`
report only appends a success-level log entry to a completed step and
the pipeline continues. -/
theorem emby_conflict_blocks_placement
    (req : ScrapeRequest) (env : ScrapeEnv) (parsed : ParsedInfo)
    (r0 : ScrapeResult) (l0 : List ScrapeLogStep) (sc : SearchCont)
    (dc : DetailCont) (ec : EpisodeCont) (c : ConflictCheckResult)
    (hc : env.conflictOutcome = .ok c)
    (hparse : scrapeParseStage req env = .inr (parsed, r0, l0))
    (hsearch : scrapeSearchStage req env parsed r0 l0 = .ok (.inr sc))
    (hdetail : scrapeDetailStage env sc.selected sc.result sc.logs = .ok (.inr dc))
    (hep : scrapeEpisodeStage env sc.selected parsed dc.series dc.result
      dc.logs = .inr ec) :
    (c.conflict_type = .episode_exists →
      ∃ r, scrapeConflictStage env ec.result ec.logs = .inl r ∧
        r.status = .emby_conflict ∧ r.emby_conflict = some c ∧
        r.message = c.message ∧
        scrape_file req env = .ok (r, env.fs)) ∧
    (c.conflict_type = .series_exists →
      scrapeConflictStage env ec.result ec.logs = .inr (ec.logs ++
        [{ name := "Emby 冲突检查"
           logs := [{ message := strOr c.message "Emby 中已存在该剧集"
                      level := .success }] }])) := by
  constructor
  · intro hct
    have hstage : scrapeConflictStage env ec.result ec.logs =
        .inl { ec.result with
               status := .emby_conflict
               message := c.message
               emby_conflict := some c
               scrape_logs := ec.logs ++
                 [{ name := "Emby 冲突检查", completed := false,
                    logs := [{ message := strOr c.message "Emby 中已存在该集"
                               level := .warning }] }] } := by
      simp only [scrapeConflictStage, hc]
      rw [if_pos hct]
    refine ⟨_, hstage, rfl, rfl, rfl, ?_⟩
    simp only [scrape_file, hparse, hsearch, hdetail, hep, hstage]
  · intro hct
    have hne1 : ¬ c.conflict_type = ConflictType.episode_exists := by
      rw [hct]
      decide
    simp only [scrapeConflictStage, hc]
    rw [if_neg hne1, if_pos hct]

/-- **C4 (witness).** The demo run whose conflict oracle reports
`episode_exists` with message `Emby!`: the run stops with
`emby_conflict` and the filesystem untouched. -/
theorem emby_conflict_blocks_placement_witness :
    c4Env.conflictOutcome = .ok c4Conflict ∧
    c4Conflict.conflict_type = .episode_exists ∧
    (∃ r, scrapeConflictStage c4Env c4EC.result c4EC.logs = .inl r ∧
      r.status = .emby_conflict ∧ r.emby_conflict = some c4Conflict ∧
      r.message = c4Conflict.message ∧
      scrape_file demoReq c4Env = .ok (r, c4Env.fs)) :=
  ⟨rfl, rfl,
    (emby_conflict_blocks_placement demoReq c4Env c4Parse3.1 c4Parse3.2.1
      c4Parse3.2.2 c4SC c4DC c4EC c4Conflict rfl rfl rfl rfl rfl).1 rfl⟩

/-! ### Claim C8 -/

/-- **C8.** A search HTTP request that completes with any non-200 status
makes `search_series_by_api` return a successful *empty* response (no
exception), so the orchestrator reports `no_match`; only a timeout or a
connection error of the search request produce `search_failed`. -/
theorem non200_search_yields_no_match
    (req : ScrapeRequest) (env : ScrapeEnv) (parsed : ParsedInfo)
    (r0 : ScrapeResult) (l0 : List ScrapeLogStep) (query tok : String)
    (hparse : scrapeParseStage req env = .inr (parsed, r0, l0))
    (hq : parsed.series_name.getD "" = query)
    (htid : natTruthy parsed.tmdb_id = false)
    (htok : env.token = some tok) :
    (∀ status body, status ≠ 200 → env.searchHttp query = .resp status body →
      search_series_by_api env.token env.searchHttp query =
        .ok { query := query, total_results := 0, results := [] } ∧
      ∃ r, scrapeSearchStage req env parsed r0 l0 = .ok (.inl r) ∧
        r.status = .no_match ∧
        r.message = some ("未找到匹配的成人剧集: " ++ query) ∧
        scrape_file req env = .ok (r, env.fs)) ∧
    (env.searchHttp query = .timeout →
      ∃ r, scrapeSearchStage req env parsed r0 l0 = .ok (.inl r) ∧
        r.status = .search_failed ∧
        r.message = some "TMDB 搜索超时，请检查网络或 Cookie" ∧
        scrape_file req env = .ok (r, env.fs)) ∧
    (∀ m, env.searchHttp query = .connError m →
      ∃ r, scrapeSearchStage req env parsed r0 l0 = .ok (.inl r) ∧
        r.status = .search_failed ∧
        r.message = some ("TMDB 搜索失败: " ++ m) ∧
        scrape_file req env = .ok (r, env.fs)) := by
  have htidF : ¬ natTruthy parsed.tmdb_id = true := by
    simp [htid]
  refine ⟨?_, ?_, ?_⟩
  · intro status body hstat hhttp
    have hapi : search_series_by_api env.token env.searchHttp query =
        .ok { query := query, total_results := 0, results := [] } := by
      simp only [search_series_by_api, htok, hhttp]
      rw [if_pos hstat]
    refine ⟨hapi, ?_⟩
    have hstage : scrapeSearchStage req env parsed r0 l0 =
        .ok (.inl { r0 with
          status := .no_match
          search_results := []
          message := some ("未找到匹配的成人剧集: " ++ query)
          scrape_logs := l0 ++ [{
            name := "搜索 TMDB", completed := false,
            logs := [{ message := "搜索关键词: " ++ query },
              { message := "找到 " ++
                  toString (List.filter (fun r => r.adult)
                    ([] : List TMDBSearchResult)).length ++ " 个匹配结果" },
              { message := "未找到匹配的成人剧集", level := .warning }] }] }) := by
      dsimp only [scrapeSearchStage]
      rw [if_neg htidF, hq, hapi]
      rfl
    refine ⟨_, hstage, rfl, rfl, ?_⟩
    simp only [scrape_file, hparse, hstage]
  · intro hhttp
    have hstage : scrapeSearchStage req env parsed r0 l0 =
        .ok (.inl { r0 with
          status := .search_failed
          message := some "TMDB 搜索超时，请检查网络或 Cookie"
          scrape_logs := l0 ++ [{
            name := "搜索 TMDB", completed := false,
            logs := [{ message := "搜索关键词: " ++ query },
              { message := "TMDB 搜索超时", level := .error }] }] }) := by
      dsimp only [scrapeSearchStage]
      rw [if_neg htidF, hq]
      have hapi : search_series_by_api env.token env.searchHttp query =
          .error .timeout := by
        simp only [search_series_by_api, htok, hhttp]
      rw [hapi]
    refine ⟨_, hstage, rfl, rfl, ?_⟩
    simp only [scrape_file, hparse, hstage]
  · intro m hhttp
    have hstage : scrapeSearchStage req env parsed r0 l0 =
        .ok (.inl { r0 with
          status := .search_failed
          message := some ("TMDB 搜索失败: " ++ m)
          scrape_logs := l0 ++ [{
            name := "搜索 TMDB", completed := false,
            logs := [{ message := "搜索关键词: " ++ query },
              { message := "TMDB 搜索失败: " ++ m, level := .error }] }] }) := by
      dsimp only [scrapeSearchStage]
      rw [if_neg htidF, hq]
      have hapi : search_series_by_api env.token env.searchHttp query =
          .error (.connError m) := by
        simp only [search_series_by_api, htok, hhttp]
      rw [hapi]
    refine ⟨_, hstage, rfl, rfl, ?_⟩
    simp only [scrape_file, hparse, hstage]

/-- **C8 (witness).** The demo run whose search request completes with
status 401: the API call returns an empty successful response and the
run ends in `no_match`. -/
theorem non200_search_yields_no_match_witness :
    (401 : Nat) ≠ 200 ∧ c8Env.searchHttp "Show" = .resp 401 c8Body ∧
    (search_series_by_api c8Env.token c8Env.searchHttp "Show" =
        .ok { query := "Show", total_results := 0, results := [] } ∧
     ∃ r, scrapeSearchStage demoReq c8Env c8Parse3.1 c8Parse3.2.1 c8Parse3.2.2 =
         .ok (.inl r) ∧
       r.status = .no_match ∧
       r.message = some ("未找到匹配的成人剧集: " ++ "Show") ∧
       scrape_file demoReq c8Env = .ok (r, c8Env.fs)) :=
  ⟨by decide, rfl,
    (non200_search_yields_no_match demoReq c8Env c8Parse3.1 c8Parse3.2.1
      c8Parse3.2.2 "Show" "t" rfl rfl rfl rfl).1 401 c8Body (by decide) rfl⟩

end MHTI
